import Mathlib

/-
Verification of the Zoho Sprints MCP server core
(`src/mcp_streamable_http_server.py`, `src/services/zoho_sprints.py`).

Shallow embedding notes:
* Python JSON values are modelled by `Json`; Python `None` and JSON `null`
  coincide (as they do for `response.json()`), both are `Json.null`.
* Time is a `Nat` instant; `datetime.now()` is the parameter `now`.
* The network is an oracle: `AuthResponse` is what the token endpoint does
  when `authenticate` posts to it, `HttpResult` is what one upstream GET
  does.  Each service getter performs at most one authentication exchange
  and at most one upstream GET, so one oracle value per call suffices; the
  dispatcher receives per-batch-index oracles.
* Observable effects are collected in a `List Event` trace: one
  `Event.authCall` per invocation of `authenticate`, one
  `Event.upstreamCall` per attempted upstream GET (`requests.get`), one
  `Event.toolExec` per `_execute_zoho_tool` invocation.
* Python exceptions that cross a function boundary are `Except.error` with
  the exception's message; exceptions caught inside a function are folded
  into its result, exactly where the source's `try/except` blocks sit.
* `json.dumps(result, indent=2)` is modelled by `Json.dumps`; the
  indentation/whitespace of the pretty-printer is abstracted (no claim
  inspects the whitespace of a success payload).
* `settings.validate()` (configuration loading, out of the spec's scope) is
  the process-fixed oracle `Env.cfgError`: `none` when the environment
  variables are present, `some msg` when the constructor raises `msg`.
-/

/-- Python/JSON values as they flow through the server. -/
inductive Json where
  | null : Json
  | bool : Bool → Json
  | num : Int → Json
  | str : String → Json
  | arr : List Json → Json
  | obj : List (String × Json) → Json
deriving Repr

/-- Python truthiness (`if x:`) of a JSON value. -/
def Json.truthy : Json → Bool
  | .null => false
  | .bool b => b
  | .num n => n != 0
  | .str s => s != ""
  | .arr xs => !xs.isEmpty
  | .obj fs => !fs.isEmpty

/-- The Python type name used in runtime error messages. -/
def Json.pyType : Json → String
  | .null => "NoneType"
  | .bool _ => "bool"
  | .num _ => "int"
  | .str _ => "str"
  | .arr _ => "list"
  | .obj _ => "dict"

/-- Python `len(x)`: defined on sized values, a `TypeError` otherwise. -/
def Json.pyLen : Json → Except String Int
  | .str s => .ok (Int.ofNat s.length)
  | .arr xs => .ok (Int.ofNat xs.length)
  | .obj fs => .ok (Int.ofNat fs.length)
  | v => .error ("object of type '" ++ v.pyType ++ "' has no len()")

/-- Field lookup in an object, `none` when the key is absent. -/
def Json.getKey (v : Json) (k : String) : Option Json :=
  match v with
  | .obj fs => fs.lookup k
  | _ => none

/-- Python `d.get(k, default)`: an `AttributeError` on a non-dict. -/
def Json.pyGet (v : Json) (k : String) (dflt : Json) : Except String Json :=
  match v with
  | .obj fs => .ok ((fs.lookup k).getD dflt)
  | w => .error ("'" ++ w.pyType ++ "' object has no attribute 'get'")

/-- Python `x == "s"` between a JSON value and a string literal. -/
def Json.eqStr (v : Json) (s : String) : Bool :=
  match v with
  | .str t => t == s
  | _ => false

mutual
/-- Serialization standing in for `json.dumps` (whitespace abstracted). -/
def Json.dumps : Json → String
  | .null => "null"
  | .bool b => if b then "true" else "false"
  | .num n => toString n
  | .str s => "\"" ++ s ++ "\""
  | .arr xs => "[" ++ Json.dumpsList xs ++ "]"
  | .obj fs => "\x7b" ++ Json.dumpsFields fs ++ "\x7d"

def Json.dumpsList : List Json → String
  | [] => ""
  | [v] => Json.dumps v
  | v :: vs => Json.dumps v ++ ", " ++ Json.dumpsList vs

def Json.dumpsFields : List (String × Json) → String
  | [] => ""
  | [(k, v)] => "\"" ++ k ++ "\": " ++ Json.dumps v
  | (k, v) :: fs => "\"" ++ k ++ "\": " ++ Json.dumps v ++ ", " ++ Json.dumpsFields fs
end

/-- Python `str(x)` as used in f-string interpolation (container rendering
abstracted to the serializer; no claim inspects it). -/
def Json.pyStr : Json → String
  | .null => "None"
  | .bool b => if b then "True" else "False"
  | .num n => toString n
  | .str s => s
  | v => Json.dumps v

/-- Observable effects of the core: authentication exchanges, upstream GET
attempts, and tool-executor invocations. -/
inductive Event where
  | authCall : Event
  | upstreamCall : Event
  | toolExec : Json → Event
deriving Repr

/-- The credential fields of `ZohoSprintsService` (`zoho_sprints.py`,
constructor lines 26-28). -/
structure CredState where
  access_token : Option String
  refresh_token : Option String
  token_expires_at : Option Nat
deriving Repr

/-- The credential state of a freshly constructed `ZohoSprintsService`. -/
def emptyCred : CredState := ⟨none, none, none⟩

/-- Decoded body of the token endpoint's JSON response. -/
structure TokenData where
  access_token : Option String
  refresh_token : Option String
  expires_in : Option Nat
deriving Repr

/-- What the token endpoint does when `authenticate` posts to it:
a transport failure (`requests.post` raises), or a response with an HTTP
status and a body (`none` = undecodable by `response.json()`). -/
inductive AuthResponse where
  | transportFail : String → AuthResponse
  | response : Nat → Option TokenData → AuthResponse

/-- `ZohoSprintsService.authenticate` (`zoho_sprints.py` lines 31-72).
Returns the boolean outcome, the credential state after the call, and the
event trace (always exactly one `authCall`).  `response.raise_for_status()`
raises exactly on status ≥ 400. -/
def authenticate (now : Nat) (ar : AuthResponse) (s : CredState) :
    Bool × CredState × List Event :=
  match ar with
  | .transportFail _ => (false, s, [Event.authCall])
  | .response status body =>
    if 400 ≤ status then
      (false, s, [Event.authCall])
    else
      match body with
      | none => (false, s, [Event.authCall])
      | some td =>
        (true,
         { access_token := td.access_token,
           refresh_token := td.refresh_token,
           token_expires_at := some (now + td.expires_in.getD 3600) },
         [Event.authCall])

/-- `ZohoSprintsService._is_token_expired` (lines 84-88). -/
def is_token_expired (now : Nat) (s : CredState) : Bool :=
  match s.token_expires_at with
  | none => true
  | some t => t ≤ now

/-- `ZohoSprintsService._ensure_authenticated` (lines 90-95). -/
def ensure_authenticated (now : Nat) (ar : AuthResponse) (s : CredState) :
    Bool × CredState × List Event :=
  if is_token_expired now s then authenticate now ar s
  else (true, s, [])

/-- What one upstream GET does: a transport failure (`requests.get`
raises), or a response with a status and a body (`none` = undecodable). -/
inductive HttpResult where
  | transportFail : String → HttpResult
  | response : Nat → Option Json → HttpResult

/-- The common `requests.get` → `raise_for_status` → `response.json()`
sequence of every service getter, as an exception-or-value. -/
def httpGetJson : HttpResult → Except String Json
  | .transportFail m => .error m
  | .response status body =>
    if 400 ≤ status then .error ("HTTP error " ++ toString status)
    else
      match body with
      | none => .error "Expecting value: line 1 column 1 (char 0)"
      | some v => .ok v

/-- `ZohoSprintsService._get_headers` (lines 74-82): raises a `ValueError`
when no access token is held.  Only the raise/no-raise outcome is
observable downstream. -/
def get_headers (s : CredState) : Except String Unit :=
  match s.access_token with
  | none => .error "Not authenticated. Call authenticate() first."
  | some _ => .ok ()

/-- `ZohoSprintsService.get_projects` (lines 97-112): ensure auth (on
failure return `[]`), build headers, GET, decode; every exception inside
the `try` yields `[]`. -/
def get_projects (now : Nat) (ar : AuthResponse) (h : HttpResult)
    (s : CredState) : Json × CredState × List Event :=
  let r := ensure_authenticated now ar s
  if !r.1 then (Json.arr [], r.2.1, r.2.2)
  else
    match get_headers r.2.1 with
    | .error _ => (Json.arr [], r.2.1, r.2.2)
    | .ok _ =>
      match httpGetJson h with
      | .error _ => (Json.arr [], r.2.1, r.2.2 ++ [Event.upstreamCall])
      | .ok v => (v, r.2.1, r.2.2 ++ [Event.upstreamCall])

/-- `ZohoSprintsService.get_project` (lines 114-128): as `get_projects`
but the auth-failure and exception paths return `None`. -/
def get_project (now : Nat) (ar : AuthResponse) (h : HttpResult)
    (s : CredState) : Json × CredState × List Event :=
  let r := ensure_authenticated now ar s
  if !r.1 then (Json.null, r.2.1, r.2.2)
  else
    match get_headers r.2.1 with
    | .error _ => (Json.null, r.2.1, r.2.2)
    | .ok _ =>
      match httpGetJson h with
      | .error _ => (Json.null, r.2.1, r.2.2 ++ [Event.upstreamCall])
      | .ok v => (v, r.2.1, r.2.2 ++ [Event.upstreamCall])

/-- `ZohoSprintsService.get_sprints` (lines 130-144): the auth-failure
path returns `[]` (line 134) but the exception handler returns `None`
(line 144), so a failed GET — or a headers `ValueError` — yields `None`,
not `[]`. -/
def get_sprints (now : Nat) (ar : AuthResponse) (h : HttpResult)
    (s : CredState) : Json × CredState × List Event :=
  let r := ensure_authenticated now ar s
  if !r.1 then (Json.arr [], r.2.1, r.2.2)
  else
    match get_headers r.2.1 with
    | .error _ => (Json.null, r.2.1, r.2.2)
    | .ok _ =>
      match httpGetJson h with
      | .error _ => (Json.null, r.2.1, r.2.2 ++ [Event.upstreamCall])
      | .ok v => (v, r.2.1, r.2.2 ++ [Event.upstreamCall])

/-- `ZohoSprintsService.get_sprint` (lines 146-160). -/
def get_sprint (now : Nat) (ar : AuthResponse) (h : HttpResult)
    (s : CredState) : Json × CredState × List Event :=
  get_project now ar h s

/-- `ZohoSprintsService.get_items` (lines 162-181): after the GET the body
runs `data.get("items", [])`; an `AttributeError` on a non-dict body is
caught by the same handler and yields `[]`. -/
def get_items (now : Nat) (ar : AuthResponse) (h : HttpResult)
    (s : CredState) : Json × CredState × List Event :=
  let r := ensure_authenticated now ar s
  if !r.1 then (Json.arr [], r.2.1, r.2.2)
  else
    match get_headers r.2.1 with
    | .error _ => (Json.arr [], r.2.1, r.2.2)
    | .ok _ =>
      match httpGetJson h with
      | .error _ => (Json.arr [], r.2.1, r.2.2 ++ [Event.upstreamCall])
      | .ok v =>
        match v.pyGet "items" (Json.arr []) with
        | .error _ => (Json.arr [], r.2.1, r.2.2 ++ [Event.upstreamCall])
        | .ok items => (items, r.2.1, r.2.2 ++ [Event.upstreamCall])

/-- `ZohoSprintsService.get_item` (lines 183-197).  NOTE: the Python
signature takes only `(project_id, item_id)`; the tool executor passes
three arguments, so this body is unreachable from the executor (see the
arity `TypeError` in `execute_zoho_tool`). -/
def get_item (now : Nat) (ar : AuthResponse) (h : HttpResult)
    (s : CredState) : Json × CredState × List Event :=
  get_project now ar h s

/-- `ZohoSprintsService.get_epics` (lines 232-247): like `get_items` with
key `"epics"`. -/
def get_epics (now : Nat) (ar : AuthResponse) (h : HttpResult)
    (s : CredState) : Json × CredState × List Event :=
  let r := ensure_authenticated now ar s
  if !r.1 then (Json.arr [], r.2.1, r.2.2)
  else
    match get_headers r.2.1 with
    | .error _ => (Json.arr [], r.2.1, r.2.2)
    | .ok _ =>
      match httpGetJson h with
      | .error _ => (Json.arr [], r.2.1, r.2.2 ++ [Event.upstreamCall])
      | .ok v =>
        match v.pyGet "epics" (Json.arr []) with
        | .error _ => (Json.arr [], r.2.1, r.2.2 ++ [Event.upstreamCall])
        | .ok epics => (epics, r.2.1, r.2.2 ++ [Event.upstreamCall])

/-- `ZohoSprintsService.get_epic` (lines 249-263). -/
def get_epic (now : Nat) (ar : AuthResponse) (h : HttpResult)
    (s : CredState) : Json × CredState × List Event :=
  get_project now ar h s

/-- Outcome of `_execute_zoho_tool`: a result dict without an `"error"`
key, or the dict `\x7b"error": msg\x7d`. -/
inductive ToolOutcome where
  | ok : Json → ToolOutcome
  | err : String → ToolOutcome
deriving Repr

/-- Whether an executor outcome is the error dict. -/
def ToolOutcome.isErr : ToolOutcome → Bool
  | .ok _ => false
  | .err _ => true

/-- The `get_projects` branch of `_execute_zoho_tool` (lines 368-371). -/
def exec_get_projects (now : Nat) (ar : AuthResponse) (h : HttpResult)
    (s : CredState) : ToolOutcome × CredState × List Event :=
  let r := get_projects now ar h s
  match r.1.pyLen with
  | .ok n => (.ok (.obj [("projects", r.1), ("count", .num n)]), r.2.1, r.2.2)
  | .error m => (.err m, r.2.1, r.2.2)

/-- The `get_project` branch (lines 373-378). -/
def exec_get_project (now : Nat) (ar : AuthResponse) (h : HttpResult)
    (args : Json) (s : CredState) : ToolOutcome × CredState × List Event :=
  match args with
  | .obj fs =>
    let pid := (fs.lookup "project_id").getD Json.null
    if !pid.truthy then (.err "project_id is required", s, [])
    else
      let r := get_project now ar h s
      if r.1.truthy then (.ok (.obj [("project", r.1)]), r.2.1, r.2.2)
      else (.err "Project not found", r.2.1, r.2.2)
  | w => (.err ("'" ++ w.pyType ++ "' object has no attribute 'get'"), s, [])

/-- The `get_sprints` branch (lines 380-385). -/
def exec_get_sprints (now : Nat) (ar : AuthResponse) (h : HttpResult)
    (args : Json) (s : CredState) : ToolOutcome × CredState × List Event :=
  match args with
  | .obj fs =>
    let pid := (fs.lookup "project_id").getD Json.null
    if !pid.truthy then (.err "project_id is required", s, [])
    else
      let r := get_sprints now ar h s
      match r.1.pyLen with
      | .ok n => (.ok (.obj [("sprints", r.1), ("count", .num n)]), r.2.1, r.2.2)
      | .error m => (.err m, r.2.1, r.2.2)
  | w => (.err ("'" ++ w.pyType ++ "' object has no attribute 'get'"), s, [])

/-- The `get_sprint` branch (lines 387-393). -/
def exec_get_sprint (now : Nat) (ar : AuthResponse) (h : HttpResult)
    (args : Json) (s : CredState) : ToolOutcome × CredState × List Event :=
  match args with
  | .obj fs =>
    let pid := (fs.lookup "project_id").getD Json.null
    let sid := (fs.lookup "sprint_id").getD Json.null
    if !pid.truthy || !sid.truthy then
      (.err "project_id and sprint_id are required", s, [])
    else
      let r := get_sprint now ar h s
      if r.1.truthy then (.ok (.obj [("sprint", r.1)]), r.2.1, r.2.2)
      else (.err "Sprint not found", r.2.1, r.2.2)
  | w => (.err ("'" ++ w.pyType ++ "' object has no attribute 'get'"), s, [])

/-- The `get_items` branch (lines 395-401). -/
def exec_get_items (now : Nat) (ar : AuthResponse) (h : HttpResult)
    (args : Json) (s : CredState) : ToolOutcome × CredState × List Event :=
  match args with
  | .obj fs =>
    let pid := (fs.lookup "project_id").getD Json.null
    let sid := (fs.lookup "sprint_id_or_backlog_id").getD Json.null
    if !pid.truthy || !sid.truthy then
      (.err "project_id and sprint_id_or_backlog_id are required", s, [])
    else
      let r := get_items now ar h s
      match r.1.pyLen with
      | .ok n => (.ok (.obj [("items", r.1), ("count", .num n)]), r.2.1, r.2.2)
      | .error m => (.err m, r.2.1, r.2.2)
  | w => (.err ("'" ++ w.pyType ++ "' object has no attribute 'get'"), s, [])

/-- The `get_item` branch (lines 403-410).  After validation the source
calls `self.zoho_service.get_item(project_id, sprint_id_or_backlog_id,
item_id)`, but `ZohoSprintsService.get_item` accepts only
`(self, project_id, item_id)`: the call raises an arity `TypeError`
caught by the branch's own handler, and the service body — hence the
upstream — is never reached. -/
def exec_get_item (args : Json) (s : CredState) :
    ToolOutcome × CredState × List Event :=
  match args with
  | .obj fs =>
    let pid := (fs.lookup "project_id").getD Json.null
    let sid := (fs.lookup "sprint_id_or_backlog_id").getD Json.null
    let iid := (fs.lookup "item_id").getD Json.null
    if !pid.truthy || !sid.truthy || !iid.truthy then
      (.err "project_id, sprint_id_or_backlog_id, and item_id are required", s, [])
    else
      (.err "ZohoSprintsService.get_item() takes 3 positional arguments but 4 were given", s, [])
  | w => (.err ("'" ++ w.pyType ++ "' object has no attribute 'get'"), s, [])

/-- The `get_epics` branch (lines 412-417). -/
def exec_get_epics (now : Nat) (ar : AuthResponse) (h : HttpResult)
    (args : Json) (s : CredState) : ToolOutcome × CredState × List Event :=
  match args with
  | .obj fs =>
    let pid := (fs.lookup "project_id").getD Json.null
    if !pid.truthy then (.err "project_id is required", s, [])
    else
      let r := get_epics now ar h s
      match r.1.pyLen with
      | .ok n => (.ok (.obj [("epics", r.1), ("count", .num n)]), r.2.1, r.2.2)
      | .error m => (.err m, r.2.1, r.2.2)
  | w => (.err ("'" ++ w.pyType ++ "' object has no attribute 'get'"), s, [])

/-- The `get_epic` branch (lines 419-425). -/
def exec_get_epic (now : Nat) (ar : AuthResponse) (h : HttpResult)
    (args : Json) (s : CredState) : ToolOutcome × CredState × List Event :=
  match args with
  | .obj fs =>
    let pid := (fs.lookup "project_id").getD Json.null
    let eid := (fs.lookup "epic_id").getD Json.null
    if !pid.truthy || !eid.truthy then
      (.err "project_id and epic_id are required", s, [])
    else
      let r := get_epic now ar h s
      if r.1.truthy then (.ok (.obj [("epic", r.1)]), r.2.1, r.2.2)
      else (.err "Epic not found", r.2.1, r.2.2)
  | w => (.err ("'" ++ w.pyType ++ "' object has no attribute 'get'"), s, [])

/-- `StreamableHttpMCPServer._execute_zoho_tool`
(`mcp_streamable_http_server.py` lines 365-432): dispatch over the tool
name (`tool_name` and `tool_args` are arbitrary JSON values, as extracted
from the call entry), one branch per catalog entry, else
`Unknown tool: ...`. -/
def execute_zoho_tool (now : Nat) (ar : AuthResponse) (h : HttpResult)
    (name : Json) (args : Json) (s : CredState) :
    ToolOutcome × CredState × List Event :=
  if name.eqStr "get_projects" then exec_get_projects now ar h s
  else if name.eqStr "get_project" then exec_get_project now ar h args s
  else if name.eqStr "get_sprints" then exec_get_sprints now ar h args s
  else if name.eqStr "get_sprint" then exec_get_sprint now ar h args s
  else if name.eqStr "get_items" then exec_get_items now ar h args s
  else if name.eqStr "get_item" then exec_get_item args s
  else if name.eqStr "get_epics" then exec_get_epics now ar h args s
  else if name.eqStr "get_epic" then exec_get_epic now ar h args s
  else (.err ("Unknown tool: " ++ name.pyStr), s, [])

/-- Python `for x in v:` over a JSON value: lists yield elements, strings
yield one-character strings, dicts yield their keys, the rest raise. -/
def Json.pyIter : Json → Except String (List Json)
  | .arr xs => .ok xs
  | .str s => .ok (s.toList.map (fun c => Json.str (String.mk [c])))
  | .obj fs => .ok (fs.map (fun p => Json.str p.1))
  | v => .error ("'" ++ v.pyType ++ "' object is not iterable")

/-- One entry of the `results` list built by `handle_tools_call`:
`\x7b"name": ..., "content": [\x7b"type": "text", "text": ...\x7d]\x7d`
(the content list always holds exactly one text item). -/
structure ToolResult where
  name : Json
  text : String
deriving Repr

/-- Formatting of one executor outcome into a `results` entry
(`mcp_streamable_http_server.py` lines 317-333). -/
def formatOutcome (name : Json) (o : ToolOutcome) : ToolResult :=
  match o with
  | .ok payload => ⟨name, Json.dumps payload⟩
  | .err m => ⟨name, "Error: " ++ m⟩

/-- JSON rendering of one `results` entry. -/
def toolResultJson (t : ToolResult) : Json :=
  Json.obj [("name", t.name),
            ("content", Json.arr [Json.obj [("type", Json.str "text"),
                                            ("text", Json.str t.text)]])]

/-- Result value of a `tools/call` response (lines 345-363): flattened to
the single `\x7bname, content\x7d` when exactly one result exists,
otherwise wrapped under `"calls"`. -/
def batchResultJson (results : List ToolResult) : Json :=
  match results with
  | [t] => Json.obj [("name", t.name),
                     ("content", Json.arr [Json.obj [("type", Json.str "text"),
                                                     ("text", Json.str t.text)]])]
  | ts => Json.obj [("calls", Json.arr (ts.map toolResultJson))]

/-- The `error` member of a response envelope. -/
structure MCPError where
  code : Int
  message : String
  data : Option String
deriving Repr

/-- A response envelope (the constant `"jsonrpc": "2.0"` marker is
implicit).  The source builds plain dicts, so `result` and `error` may
each be present or absent independently. -/
structure MCPResp where
  id : Option Int
  result : Option Json
  error : Option MCPError
deriving Repr

/-- The `MCPRequest` pydantic model (lines 18-23). -/
structure MCPRequest where
  id : Option Int
  method : String
  params : Option (List (String × Json))

/-- Server session fields (`self.initialized`, `self.zoho_service`,
lines 41-42). -/
structure ServerState where
  initialized : Bool
  zoho_service : Option CredState
deriving Repr

/-- The freshly constructed server (line 37-42). -/
def initialServer : ServerState := ⟨false, none⟩

/-- The process environment: configuration validity and the network
oracles.  `cfgError` models `settings.validate()` (out-of-scope
configuration loading): `none` when the required environment variables are
set, `some msg` when the `ZohoSprintsService` constructor raises.
`initAuth` answers the token-endpoint exchange performed by `initialize`;
`callAuth i` / `callHttp i` answer the (at most one) token exchange and
upstream GET of the `i`-th call of a `tools/call` batch. -/
structure Env where
  cfgError : Option String
  now : Nat
  initAuth : AuthResponse
  callAuth : Nat → AuthResponse
  callHttp : Nat → HttpResult

/-- One entry of the static tool catalog (lines 184-277). -/
structure ToolDescriptor where
  name : String
  description : String
  properties : List (String × String)
  required : List String
deriving Repr

/-- The fixed 8-entry catalog returned by `tools/list`. -/
def toolsCatalog : List ToolDescriptor :=
  [⟨"get_projects", "Get all projects from Zoho Sprints", [], []⟩,
   ⟨"get_project", "Get a specific project by ID",
     [("project_id", "Project ID")], ["project_id"]⟩,
   ⟨"get_sprints", "Get all sprints for a project",
     [("project_id", "Project ID")], ["project_id"]⟩,
   ⟨"get_sprint", "Get a specific sprint by ID",
     [("project_id", "Project ID"), ("sprint_id", "Sprint ID")],
     ["project_id", "sprint_id"]⟩,
   ⟨"get_items", "Get items (stories, tasks, bugs) for a project sprint or backlog",
     [("project_id", "Project ID"),
      ("sprint_id_or_backlog_id", "Sprint ID or Backlog ID (required)")],
     ["project_id", "sprint_id_or_backlog_id"]⟩,
   ⟨"get_item", "Get a specific item by ID from a project sprint or backlog",
     [("project_id", "Project ID"),
      ("sprint_id_or_backlog_id", "Sprint ID or Backlog ID (required)"),
      ("item_id", "Item ID")],
     ["project_id", "sprint_id_or_backlog_id", "item_id"]⟩,
   ⟨"get_epics", "Get all epics for a project",
     [("project_id", "Project ID")], ["project_id"]⟩,
   ⟨"get_epic", "Get a specific epic by ID",
     [("project_id", "Project ID"), ("epic_id", "Epic ID")],
     ["project_id", "epic_id"]⟩]

/-- JSON rendering of one tool descriptor as `tools/list` emits it. -/
def descriptorJson (d : ToolDescriptor) : Json :=
  Json.obj
    [("name", Json.str d.name),
     ("description", Json.str d.description),
     ("inputSchema",
      Json.obj
        [("type", Json.str "object"),
         ("properties",
          Json.obj (d.properties.map
            (fun p => (p.1, Json.obj [("type", Json.str "string"),
                                      ("description", Json.str p.2)])))),
         ("required", Json.arr (d.required.map Json.str))])]

/-- The result value of every `tools/list` response (lines 279-283). -/
def toolsListResult : Json :=
  Json.obj [("tools", Json.arr (toolsCatalog.map descriptorJson))]

/-- The result value of a successful `initialize` (lines 149-168). -/
def initializeResult (pv : Json) : Json :=
  Json.obj
    [("protocolVersion", pv),
     ("capabilities",
      Json.obj [("tools", Json.obj [("listChanged", Json.bool true),
                                    ("listRequired", Json.bool false)])]),
     ("serverInfo", Json.obj [("name", Json.str "zoho-sprints-mcp-server"),
                              ("version", Json.str "1.0.0")])]

/-- `StreamableHttpMCPServer.handle_initialize`, abbreviated
`handle_init` (lines 123-180).
`self.zoho_service = ZohoSprintsService()` re-binds the handle to a fresh
service (empty credentials) unless the constructor's `settings.validate()`
raises, in which case the old handle survives; then `authenticate()` runs
on the fresh service, and a `False` outcome raises into the method's own
`except`, which returns the `Initialization failed` envelope. -/
def handle_init (env : Env) (params : List (String × Json))
    (rid : Option Int) (st : ServerState) :
    MCPResp × ServerState × List Event :=
  match env.cfgError with
  | some m =>
    (⟨rid, none, some ⟨-32603, "Initialization failed", some m⟩⟩, st, [])
  | none =>
    let r := authenticate env.now env.initAuth emptyCred
    if r.1 then
      let pv := (params.lookup "protocolVersion").getD (Json.str "2024-11-05")
      (⟨rid, some (initializeResult pv), none⟩, ⟨true, some r.2.1⟩, r.2.2)
    else
      (⟨rid, none,
        some ⟨-32603, "Initialization failed",
              some "Failed to authenticate with Zoho Sprints API"⟩⟩,
       ⟨st.initialized, some r.2.1⟩, r.2.2)

/-- The batch-extraction expression of `handle_tools_call` (lines
299-303): `params.get("toolCalls", params.get("calls",
params.get("tool_calls", [])))`, then the single-call fallback when the
extracted value is falsy and `params` itself carries a `name` key. -/
def toolCallsOf (params : List (String × Json)) : Json :=
  let raw :=
    match params.lookup "toolCalls" with
    | some v => v
    | none =>
      match params.lookup "calls" with
      | some v => v
      | none => (params.lookup "tool_calls").getD (Json.arr [])
  if !raw.truthy && (params.lookup "name").isSome then
    Json.arr [Json.obj params]
  else raw

/-- The per-call loop of `handle_tools_call` (lines 308-343): each entry's
`name`/`arguments` are read (an `AttributeError` on a non-dict entry
escapes the method), the executor runs, and its outcome is appended to
`results`.  The credential state threads through the batch; `i` is the
batch index selecting the network oracles. -/
def runCalls (env : Env) : List Json → Nat → CredState →
    Except String (List ToolResult) × CredState × List Event
  | [], _, s => (.ok [], s, [])
  | c :: rest, i, s =>
    match c with
    | .obj fs =>
      let nm := (fs.lookup "name").getD Json.null
      let args := (fs.lookup "arguments").getD (Json.obj [])
      let r := execute_zoho_tool env.now (env.callAuth i) (env.callHttp i) nm args s
      let rec' := runCalls env rest (i + 1) r.2.1
      (match rec'.1 with
       | .ok ts => .ok (formatOutcome nm r.1 :: ts)
       | .error e => .error e,
       rec'.2.1,
       (Event.toolExec nm :: r.2.2) ++ rec'.2.2)
    | w => (.error ("'" ++ w.pyType ++ "' object has no attribute 'get'"), s, [])

/-- `StreamableHttpMCPServer.handle_tools_call` (lines 285-363).  Returns
`Except.error` when an exception escapes the method (to be caught by the
dispatcher's handler); state mutations made before the exception
persist. -/
def handle_tools_call (env : Env) (params : List (String × Json))
    (rid : Option Int) (st : ServerState) :
    Except String MCPResp × ServerState × List Event :=
  match st.zoho_service with
  | none =>
    (.ok ⟨rid, none, some ⟨-32603, "Server not initialized",
                           some "Call initialize() first"⟩⟩, st, [])
  | some s =>
    if !st.initialized then
      (.ok ⟨rid, none, some ⟨-32603, "Server not initialized",
                             some "Call initialize() first"⟩⟩, st, [])
    else
      match (toolCallsOf params).pyIter with
      | .error e => (.error e, st, [])
      | .ok calls =>
        let r := runCalls env calls 0 s
        let st' : ServerState := ⟨st.initialized, some r.2.1⟩
        match r.1 with
        | .error e => (.error e, st', r.2.2)
        | .ok results =>
          (.ok ⟨rid, some (batchResultJson results), none⟩, st', r.2.2)

/-- `StreamableHttpMCPServer.process_mcp_request` (lines 83-121): method
routing, with the catch-all that downgrades an escaped exception to an
`Internal error` envelope. -/
def process_mcp_request (env : Env) (req : MCPRequest) (st : ServerState) :
    MCPResp × ServerState × List Event :=
  let params := req.params.getD []
  let rid := req.id
  if req.method == "initialize" then
    handle_init env params rid st
  else if req.method == "notifications/initialized" then
    (⟨rid, none, none⟩, st, [])
  else if req.method == "tools/list" then
    (⟨rid, some toolsListResult, none⟩, st, [])
  else if req.method == "tools/call" then
    match handle_tools_call env params rid st with
    | (.ok resp, st', ev) => (resp, st', ev)
    | (.error e, st', ev) =>
      (⟨rid, none, some ⟨-32603, "Internal error", some e⟩⟩, st', ev)
  else
    (⟨rid, none, some ⟨-32601, "Method not found",
                       some ("Unknown method: " ++ req.method)⟩⟩, st, [])

/-- Substring containment, used to state "message contains ...". -/
def containsSub (s sub : String) : Prop := ∃ p q, s = p ++ sub ++ q

/-- The shapes an executor-level event trace can take: at most one
authentication exchange, at most one upstream GET, and the exchange always
precedes the GET. -/
def smallTrace (tr : List Event) : Prop :=
  tr = [] ∨ tr = [Event.authCall] ∨ tr = [Event.upstreamCall] ∨
    tr = [Event.authCall, Event.upstreamCall]

/-- The executor's presence-and-truthiness test for one argument key. -/
def hasArg (args : Json) (k : String) : Bool :=
  ((args.getKey k).getD Json.null).truthy

/-- All required arguments of a catalog entry are present and truthy. -/
def requiredOk (d : ToolDescriptor) (args : Json) : Bool :=
  d.required.all (hasArg args)

/-- Fixture: a credential state holding a token valid until instant 100. -/
def validCred : CredState := ⟨some "tok", none, some 100⟩

/-- Fixture: a credential state whose token expired at instant 2. -/
def expiredCred : CredState := ⟨none, none, some 2⟩

/-- Fixture: an environment whose every network exchange fails. -/
def failEnv : Env :=
  ⟨none, 5, .transportFail "token endpoint down",
   fun _ => .transportFail "token endpoint down",
   fun _ => .transportFail "upstream down"⟩

/-- Fixture: an environment whose token endpoint and upstream succeed. -/
def okEnv : Env :=
  ⟨none, 5, .response 200 (some ⟨some "tok", some "ref", some 3600⟩),
   fun _ => .response 200 (some ⟨some "tok", some "ref", some 3600⟩),
   fun _ => .response 200 (some (Json.arr [Json.str "p"]))⟩

/-- The `results` list produced by a completed `handle_tools_call` loop
(projection of `runCalls` in its non-raising case). -/
def runResults (env : Env) (calls : List Json) (i0 : Nat) (s : CredState) :
    List ToolResult :=
  match (runCalls env calls i0 s).1 with
  | .ok ts => ts
  | .error _ => []

/-- Fixture: a two-call batch, one valid call and one missing its
required argument. -/
def batchCalls : List Json :=
  [.obj [("name", .str "get_projects")],
   .obj [("name", .str "get_project"), ("arguments", .obj [])]]

/-- Fixture: `tools/call` params wrapping `batchCalls` under `"calls"`. -/
def batchParams : List (String × Json) := [("calls", .arr batchCalls)]

/-- `authenticate` performs exactly one token-endpoint exchange. -/
theorem auth_trace (now : Nat) (ar : AuthResponse) (s : CredState) :
    (authenticate now ar s).2.2 = [Event.authCall] := by
  cases ar with
  | transportFail m => rfl
  | response status body =>
    by_cases h : 400 ≤ status
    · simp [authenticate, h]
    · cases body <;> simp [authenticate, h]

/-- A failed `authenticate` leaves the credential state untouched. -/
theorem auth_fail_frame (now : Nat) (ar : AuthResponse) (s : CredState)
    (hf : (authenticate now ar s).1 = false) :
    (authenticate now ar s).2.1 = s := by
  cases ar with
  | transportFail m => rfl
  | response status body =>
    by_cases h : 400 ≤ status
    · simp [authenticate, h]
    · cases body with
      | none => simp [authenticate, h]
      | some td => simp [authenticate, h] at hf

/-- On an expired (or absent) token, `_ensure_authenticated` is exactly one
`authenticate`. -/
theorem ensure_expired (now : Nat) (ar : AuthResponse) (s : CredState)
    (he : is_token_expired now s = true) :
    ensure_authenticated now ar s = authenticate now ar s := by
  unfold ensure_authenticated
  simp [he]

/-- On a fresh token, `_ensure_authenticated` succeeds with no exchange. -/
theorem ensure_fresh (now : Nat) (ar : AuthResponse) (s : CredState)
    (he : is_token_expired now s = false) :
    ensure_authenticated now ar s = (true, s, []) := by
  unfold ensure_authenticated
  simp [he]

/-- The trace of `_ensure_authenticated` is empty or one exchange. -/
theorem ensure_trace (now : Nat) (ar : AuthResponse) (s : CredState) :
    (ensure_authenticated now ar s).2.2 = [] ∨
      (ensure_authenticated now ar s).2.2 = [Event.authCall] := by
  unfold ensure_authenticated
  split
  · exact Or.inr (auth_trace now ar s)
  · exact Or.inl rfl

/-- C4: a failing `authenticate` (transport failure, non-success status,
or undecodable body) returns `False` and leaves the credential state —
access token, refresh token, expiry — exactly as before; a success stores
the returned tokens and sets expiry to now plus the reported lifetime,
defaulting to 3600 seconds when the server omits `expires_in`. -/
theorem claim_C4 (now : Nat) (ar : AuthResponse) (s : CredState) :
    ((authenticate now ar s).1 = false → (authenticate now ar s).2.1 = s) ∧
    (∀ m, ar = .transportFail m → (authenticate now ar s).1 = false) ∧
    (∀ code body, ar = .response code body → 400 ≤ code →
      (authenticate now ar s).1 = false) ∧
    (∀ code, ar = .response code none → (authenticate now ar s).1 = false) ∧
    (∀ code td, ar = .response code (some td) → code < 400 →
      (authenticate now ar s).1 = true ∧
      (authenticate now ar s).2.1 =
        ⟨td.access_token, td.refresh_token, some (now + td.expires_in.getD 3600)⟩) ∧
    (∀ code td, ar = .response code (some td) → code < 400 → td.expires_in = none →
      (authenticate now ar s).2.1.token_expires_at = some (now + 3600)) := by
  refine ⟨auth_fail_frame now ar s, ?_, ?_, ?_, ?_, ?_⟩
  · intro m hm
    subst hm
    rfl
  · intro code body hm hge
    subst hm
    simp [authenticate, hge]
  · intro code hm
    subst hm
    by_cases hge : 400 ≤ code
    · simp [authenticate, hge]
    · simp [authenticate, hge]
  · intro code td hm hlt
    subst hm
    have hge : ¬ 400 ≤ code := by omega
    exact ⟨by simp [authenticate, hge], by simp [authenticate, hge]⟩
  · intro code td hm hlt hnone
    subst hm
    have hge : ¬ 400 ≤ code := by omega
    simp [authenticate, hge, hnone]

/-- Witness for C4 at concrete inputs: a transport failure at instant 5
leaves `validCred` untouched, and a success whose body omits `expires_in`
sets expiry to `5 + 3600`. -/
theorem claim_C4_witness :
    (authenticate 5 (.transportFail "down") validCred).1 = false ∧
    (authenticate 5 (.transportFail "down") validCred).2.1 = validCred ∧
    (authenticate 5 (.response 200 (some ⟨some "tok", none, none⟩))
        validCred).2.1.token_expires_at = some (5 + 3600) := by
  have h1 := claim_C4 5 (.transportFail "down") validCred
  have h2 := claim_C4 5 (.response 200 (some ⟨some "tok", none, none⟩)) validCred
  have hf := h1.2.1 "down" rfl
  exact ⟨hf, h1.1 hf, h2.2.2.2.2.2 200 ⟨some "tok", none, none⟩ rfl (by omega) rfl⟩

/-- The trace of `get_projects` is its `_ensure_authenticated` trace,
followed by one upstream GET exactly when authentication and header
construction succeeded. -/
theorem get_projects_trace (now : Nat) (ar : AuthResponse) (h : HttpResult)
    (s : CredState) :
    (get_projects now ar h s).2.2 = (ensure_authenticated now ar s).2.2 ∨
    (get_projects now ar h s).2.2 =
      (ensure_authenticated now ar s).2.2 ++ [Event.upstreamCall] := by
  simp only [get_projects]
  split
  · exact Or.inl rfl
  · split
    · exact Or.inl rfl
    · split
      · exact Or.inr rfl
      · exact Or.inr rfl

/-- Trace shape of `get_project`. -/
theorem get_project_trace (now : Nat) (ar : AuthResponse) (h : HttpResult)
    (s : CredState) :
    (get_project now ar h s).2.2 = (ensure_authenticated now ar s).2.2 ∨
    (get_project now ar h s).2.2 =
      (ensure_authenticated now ar s).2.2 ++ [Event.upstreamCall] := by
  simp only [get_project]
  split
  · exact Or.inl rfl
  · split
    · exact Or.inl rfl
    · split
      · exact Or.inr rfl
      · exact Or.inr rfl

/-- Trace shape of `get_sprints`. -/
theorem get_sprints_trace (now : Nat) (ar : AuthResponse) (h : HttpResult)
    (s : CredState) :
    (get_sprints now ar h s).2.2 = (ensure_authenticated now ar s).2.2 ∨
    (get_sprints now ar h s).2.2 =
      (ensure_authenticated now ar s).2.2 ++ [Event.upstreamCall] := by
  simp only [get_sprints]
  split
  · exact Or.inl rfl
  · split
    · exact Or.inl rfl
    · split
      · exact Or.inr rfl
      · exact Or.inr rfl

/-- Trace shape of `get_sprint` (delegates to `get_project`). -/
theorem get_sprint_trace (now : Nat) (ar : AuthResponse) (h : HttpResult)
    (s : CredState) :
    (get_sprint now ar h s).2.2 = (ensure_authenticated now ar s).2.2 ∨
    (get_sprint now ar h s).2.2 =
      (ensure_authenticated now ar s).2.2 ++ [Event.upstreamCall] :=
  get_project_trace now ar h s

/-- Trace shape of `get_items`. -/
theorem get_items_trace (now : Nat) (ar : AuthResponse) (h : HttpResult)
    (s : CredState) :
    (get_items now ar h s).2.2 = (ensure_authenticated now ar s).2.2 ∨
    (get_items now ar h s).2.2 =
      (ensure_authenticated now ar s).2.2 ++ [Event.upstreamCall] := by
  simp only [get_items]
  split
  · exact Or.inl rfl
  · split
    · exact Or.inl rfl
    · split
      · exact Or.inr rfl
      · split
        · exact Or.inr rfl
        · exact Or.inr rfl

/-- Trace shape of `get_epics`. -/
theorem get_epics_trace (now : Nat) (ar : AuthResponse) (h : HttpResult)
    (s : CredState) :
    (get_epics now ar h s).2.2 = (ensure_authenticated now ar s).2.2 ∨
    (get_epics now ar h s).2.2 =
      (ensure_authenticated now ar s).2.2 ++ [Event.upstreamCall] := by
  simp only [get_epics]
  split
  · exact Or.inl rfl
  · split
    · exact Or.inl rfl
    · split
      · exact Or.inr rfl
      · split
        · exact Or.inr rfl
        · exact Or.inr rfl

/-- Trace shape of `get_epic` (delegates to `get_project`). -/
theorem get_epic_trace (now : Nat) (ar : AuthResponse) (h : HttpResult)
    (s : CredState) :
    (get_epic now ar h s).2.2 = (ensure_authenticated now ar s).2.2 ∨
    (get_epic now ar h s).2.2 =
      (ensure_authenticated now ar s).2.2 ++ [Event.upstreamCall] :=
  get_project_trace now ar h s

/-- Any trace of the getter shape is a small trace: at most one exchange,
at most one GET, exchange first. -/
theorem smallTrace_of_getter (now : Nat) (ar : AuthResponse) (s : CredState)
    (tr : List Event)
    (h : tr = (ensure_authenticated now ar s).2.2 ∨
         tr = (ensure_authenticated now ar s).2.2 ++ [Event.upstreamCall]) :
    smallTrace tr := by
  rcases ensure_trace now ar s with he | he <;>
    rcases h with rfl | rfl <;> simp [smallTrace, he]

/-- Small-trace property of the `get_projects` branch. -/
theorem exec_get_projects_small (now : Nat) (ar : AuthResponse)
    (h : HttpResult) (s : CredState) :
    smallTrace (exec_get_projects now ar h s).2.2 := by
  have hg := get_projects_trace now ar h s
  simp only [exec_get_projects]
  split
  · exact smallTrace_of_getter now ar s _ hg
  · exact smallTrace_of_getter now ar s _ hg

/-- Small-trace property of the `get_project` branch. -/
theorem exec_get_project_small (now : Nat) (ar : AuthResponse)
    (h : HttpResult) (args : Json) (s : CredState) :
    smallTrace (exec_get_project now ar h args s).2.2 := by
  have hg := get_project_trace now ar h s
  simp only [exec_get_project]
  split
  · split
    · exact Or.inl rfl
    · split
      · exact smallTrace_of_getter now ar s _ hg
      · exact smallTrace_of_getter now ar s _ hg
  · exact Or.inl rfl

/-- Small-trace property of the `get_sprints` branch. -/
theorem exec_get_sprints_small (now : Nat) (ar : AuthResponse)
    (h : HttpResult) (args : Json) (s : CredState) :
    smallTrace (exec_get_sprints now ar h args s).2.2 := by
  have hg := get_sprints_trace now ar h s
  simp only [exec_get_sprints]
  split
  · split
    · exact Or.inl rfl
    · split
      · exact smallTrace_of_getter now ar s _ hg
      · exact smallTrace_of_getter now ar s _ hg
  · exact Or.inl rfl

/-- Small-trace property of the `get_sprint` branch. -/
theorem exec_get_sprint_small (now : Nat) (ar : AuthResponse)
    (h : HttpResult) (args : Json) (s : CredState) :
    smallTrace (exec_get_sprint now ar h args s).2.2 := by
  have hg := get_sprint_trace now ar h s
  simp only [exec_get_sprint]
  split
  · split
    · exact Or.inl rfl
    · split
      · exact smallTrace_of_getter now ar s _ hg
      · exact smallTrace_of_getter now ar s _ hg
  · exact Or.inl rfl

/-- Small-trace property of the `get_items` branch. -/
theorem exec_get_items_small (now : Nat) (ar : AuthResponse)
    (h : HttpResult) (args : Json) (s : CredState) :
    smallTrace (exec_get_items now ar h args s).2.2 := by
  have hg := get_items_trace now ar h s
  simp only [exec_get_items]
  split
  · split
    · exact Or.inl rfl
    · split
      · exact smallTrace_of_getter now ar s _ hg
      · exact smallTrace_of_getter now ar s _ hg
  · exact Or.inl rfl

/-- The `get_item` branch never reaches the service: empty trace. -/
theorem exec_get_item_small (args : Json) (s : CredState) :
    smallTrace (exec_get_item args s).2.2 := by
  simp only [exec_get_item]
  split
  · split
    · exact Or.inl rfl
    · exact Or.inl rfl
  · exact Or.inl rfl

/-- Small-trace property of the `get_epics` branch. -/
theorem exec_get_epics_small (now : Nat) (ar : AuthResponse)
    (h : HttpResult) (args : Json) (s : CredState) :
    smallTrace (exec_get_epics now ar h args s).2.2 := by
  have hg := get_epics_trace now ar h s
  simp only [exec_get_epics]
  split
  · split
    · exact Or.inl rfl
    · split
      · exact smallTrace_of_getter now ar s _ hg
      · exact smallTrace_of_getter now ar s _ hg
  · exact Or.inl rfl

/-- Small-trace property of the `get_epic` branch. -/
theorem exec_get_epic_small (now : Nat) (ar : AuthResponse)
    (h : HttpResult) (args : Json) (s : CredState) :
    smallTrace (exec_get_epic now ar h args s).2.2 := by
  have hg := get_epic_trace now ar h s
  simp only [exec_get_epic]
  split
  · split
    · exact Or.inl rfl
    · split
      · exact smallTrace_of_getter now ar s _ hg
      · exact smallTrace_of_getter now ar s _ hg
  · exact Or.inl rfl

/-- Every executor invocation produces a small trace. -/
theorem exec_smallTrace (now : Nat) (ar : AuthResponse) (h : HttpResult)
    (nm args : Json) (s : CredState) :
    smallTrace (execute_zoho_tool now ar h nm args s).2.2 := by
  unfold execute_zoho_tool
  repeat' split
  all_goals
    first
      | exact exec_get_projects_small now ar h s
      | exact exec_get_project_small now ar h args s
      | exact exec_get_sprints_small now ar h args s
      | exact exec_get_sprint_small now ar h args s
      | exact exec_get_items_small now ar h args s
      | exact exec_get_item_small args s
      | exact exec_get_epics_small now ar h args s
      | exact exec_get_epic_small now ar h args s
      | exact Or.inl rfl

/-- C3: `_ensure_authenticated` is exactly freshness-driven: with no
recorded expiry, or with `now` at or past the expiry, the token counts as
expired and `_ensure_authenticated` is exactly one `authenticate` whose
outcome it propagates; with the expiry strictly in the future it succeeds
immediately with no exchange.  In any executor invocation the trace shows
at most one exchange and it precedes any upstream call. -/
theorem claim_C3 (now : Nat) (ar : AuthResponse) (s : CredState) :
    (s.token_expires_at = none → is_token_expired now s = true) ∧
    (∀ t, s.token_expires_at = some t → t ≤ now → is_token_expired now s = true) ∧
    (is_token_expired now s = true →
      ensure_authenticated now ar s = authenticate now ar s ∧
      (ensure_authenticated now ar s).2.2 = [Event.authCall]) ∧
    (∀ t, s.token_expires_at = some t → now < t →
      ensure_authenticated now ar s = (true, s, [])) ∧
    (∀ h nm args, smallTrace (execute_zoho_tool now ar h nm args s).2.2) := by
  refine ⟨?_, ?_, ?_, ?_, ?_⟩
  · intro hn
    simp [is_token_expired, hn]
  · intro t ht hle
    simp [is_token_expired, ht]
    omega
  · intro he
    refine ⟨ensure_expired now ar s he, ?_⟩
    rw [ensure_expired now ar s he]
    exact auth_trace now ar s
  · intro t ht hlt
    apply ensure_fresh
    simp [is_token_expired, ht]
    omega
  · intro h nm args
    exact exec_smallTrace now ar h nm args s

/-- Witness for C3 at concrete inputs: with expiry 2 and now 5 one
exchange happens and its (failing) outcome is propagated; with expiry 100
and now 5 no exchange happens. -/
theorem claim_C3_witness :
    is_token_expired 5 expiredCred = true ∧
    ensure_authenticated 5 (.transportFail "down") expiredCred =
      authenticate 5 (.transportFail "down") expiredCred ∧
    ensure_authenticated 5 (.transportFail "down") validCred =
      (true, validCred, []) := by
  have h1 := claim_C3 5 (.transportFail "down") expiredCred
  have h2 := claim_C3 5 (.transportFail "down") validCred
  have he : is_token_expired 5 expiredCred = true := h1.2.1 2 rfl (by omega)
  exact ⟨he, (h1.2.2.1 he).1, h2.2.2.2.1 100 rfl (by omega)⟩

/-- When the token is stale and the exchange fails, `_ensure_authenticated`
returns `False` after exactly one exchange, leaving the state as it was. -/
theorem ensure_fail_eq (now : Nat) (ar : AuthResponse) (s : CredState)
    (he : is_token_expired now s = true)
    (hf : (authenticate now ar s).1 = false) :
    ensure_authenticated now ar s = (false, s, [Event.authCall]) := by
  rw [ensure_expired now ar s he]
  have heta : authenticate now ar s =
      ((authenticate now ar s).1, (authenticate now ar s).2.1,
       (authenticate now ar s).2.2) := rfl
  rw [heta, hf, auth_fail_frame now ar s hf, auth_trace now ar s]

/-- `get_projects` under a failed credential check: empty list, no GET. -/
theorem get_projects_authfail (now : Nat) (ar : AuthResponse) (h : HttpResult)
    (s : CredState) (he : is_token_expired now s = true)
    (hf : (authenticate now ar s).1 = false) :
    get_projects now ar h s = (Json.arr [], s, [Event.authCall]) := by
  unfold get_projects
  rw [ensure_fail_eq now ar s he hf]
  rfl

/-- `get_project` under a failed credential check: `None`, no GET. -/
theorem get_project_authfail (now : Nat) (ar : AuthResponse) (h : HttpResult)
    (s : CredState) (he : is_token_expired now s = true)
    (hf : (authenticate now ar s).1 = false) :
    get_project now ar h s = (Json.null, s, [Event.authCall]) := by
  unfold get_project
  rw [ensure_fail_eq now ar s he hf]
  rfl

/-- `get_sprint` under a failed credential check: `None`, no GET. -/
theorem get_sprint_authfail (now : Nat) (ar : AuthResponse) (h : HttpResult)
    (s : CredState) (he : is_token_expired now s = true)
    (hf : (authenticate now ar s).1 = false) :
    get_sprint now ar h s = (Json.null, s, [Event.authCall]) :=
  get_project_authfail now ar h s he hf

/-- `get_epic` under a failed credential check: `None`, no GET. -/
theorem get_epic_authfail (now : Nat) (ar : AuthResponse) (h : HttpResult)
    (s : CredState) (he : is_token_expired now s = true)
    (hf : (authenticate now ar s).1 = false) :
    get_epic now ar h s = (Json.null, s, [Event.authCall]) :=
  get_project_authfail now ar h s he hf

/-- `get_sprints` under a failed credential check: empty list, no GET. -/
theorem get_sprints_authfail (now : Nat) (ar : AuthResponse) (h : HttpResult)
    (s : CredState) (he : is_token_expired now s = true)
    (hf : (authenticate now ar s).1 = false) :
    get_sprints now ar h s = (Json.arr [], s, [Event.authCall]) := by
  unfold get_sprints
  rw [ensure_fail_eq now ar s he hf]
  rfl

/-- `get_items` under a failed credential check: empty list, no GET. -/
theorem get_items_authfail (now : Nat) (ar : AuthResponse) (h : HttpResult)
    (s : CredState) (he : is_token_expired now s = true)
    (hf : (authenticate now ar s).1 = false) :
    get_items now ar h s = (Json.arr [], s, [Event.authCall]) := by
  unfold get_items
  rw [ensure_fail_eq now ar s he hf]
  rfl

/-- `get_epics` under a failed credential check: empty list, no GET. -/
theorem get_epics_authfail (now : Nat) (ar : AuthResponse) (h : HttpResult)
    (s : CredState) (he : is_token_expired now s = true)
    (hf : (authenticate now ar s).1 = false) :
    get_epics now ar h s = (Json.arr [], s, [Event.authCall]) := by
  unfold get_epics
  rw [ensure_fail_eq now ar s he hf]
  rfl

/-- Dispatch equation: the executor routes `get_projects` to its branch. -/
theorem exec_dispatch_projects (now : Nat) (ar : AuthResponse) (h : HttpResult)
    (args : Json) (s : CredState) :
    execute_zoho_tool now ar h (.str "get_projects") args s =
      exec_get_projects now ar h s := rfl

/-- Dispatch equation for `get_project`. -/
theorem exec_dispatch_project (now : Nat) (ar : AuthResponse) (h : HttpResult)
    (args : Json) (s : CredState) :
    execute_zoho_tool now ar h (.str "get_project") args s =
      exec_get_project now ar h args s := rfl

/-- Dispatch equation for `get_sprints`. -/
theorem exec_dispatch_sprints (now : Nat) (ar : AuthResponse) (h : HttpResult)
    (args : Json) (s : CredState) :
    execute_zoho_tool now ar h (.str "get_sprints") args s =
      exec_get_sprints now ar h args s := rfl

/-- Dispatch equation for `get_sprint`. -/
theorem exec_dispatch_sprint (now : Nat) (ar : AuthResponse) (h : HttpResult)
    (args : Json) (s : CredState) :
    execute_zoho_tool now ar h (.str "get_sprint") args s =
      exec_get_sprint now ar h args s := rfl

/-- Dispatch equation for `get_items`. -/
theorem exec_dispatch_items (now : Nat) (ar : AuthResponse) (h : HttpResult)
    (args : Json) (s : CredState) :
    execute_zoho_tool now ar h (.str "get_items") args s =
      exec_get_items now ar h args s := rfl

/-- Dispatch equation for `get_item`. -/
theorem exec_dispatch_item (now : Nat) (ar : AuthResponse) (h : HttpResult)
    (args : Json) (s : CredState) :
    execute_zoho_tool now ar h (.str "get_item") args s =
      exec_get_item args s := rfl

/-- Dispatch equation for `get_epics`. -/
theorem exec_dispatch_epics (now : Nat) (ar : AuthResponse) (h : HttpResult)
    (args : Json) (s : CredState) :
    execute_zoho_tool now ar h (.str "get_epics") args s =
      exec_get_epics now ar h args s := rfl

/-- Dispatch equation for `get_epic`. -/
theorem exec_dispatch_epic (now : Nat) (ar : AuthResponse) (h : HttpResult)
    (args : Json) (s : CredState) :
    execute_zoho_tool now ar h (.str "get_epic") args s =
      exec_get_epic now ar h args s := rfl

/-- C1: while the session is uninitialized, `tools/call` is answered with
the `-32603` "Server not initialized" error envelope (whose message
contains "not initialized" and whose data is "Call initialize() first"),
the session state is unchanged, and the event trace is empty: no tool
executor invocation, no authentication exchange, no upstream call. -/
theorem claim_C1 (env : Env) (req : MCPRequest) (st : ServerState)
    (hm : req.method = "tools/call") (hinit : st.initialized = false) :
    (process_mcp_request env req st).1 =
      ⟨req.id, none,
       some ⟨-32603, "Server not initialized", some "Call initialize() first"⟩⟩ ∧
    containsSub "Server not initialized" "not initialized" ∧
    (process_mcp_request env req st).2.1 = st ∧
    (process_mcp_request env req st).2.2 = [] := by
  have hcall : handle_tools_call env (req.params.getD []) req.id st =
      (.ok ⟨req.id, none,
            some ⟨-32603, "Server not initialized", some "Call initialize() first"⟩⟩,
       st, []) := by
    unfold handle_tools_call
    cases hz : st.zoho_service with
    | none => rfl
    | some s => simp [hinit]
  have hP : process_mcp_request env req st =
      (⟨req.id, none,
        some ⟨-32603, "Server not initialized", some "Call initialize() first"⟩⟩,
       st, []) := by
    simp only [process_mcp_request]
    rw [hm, hcall]
    rfl
  exact ⟨by rw [hP], ⟨"Server ", "", by decide⟩, by rw [hP], by rw [hP]⟩

/-- Witness for C1: a concrete uninitialized `tools/call`. -/
theorem claim_C1_witness :
    (process_mcp_request failEnv ⟨some 3, "tools/call", none⟩ initialServer).1 =
      ⟨some 3, none,
       some ⟨-32603, "Server not initialized", some "Call initialize() first"⟩⟩ ∧
    (process_mcp_request failEnv ⟨some 3, "tools/call", none⟩ initialServer).2.2
      = [] := by
  have h := claim_C1 failEnv ⟨some 3, "tools/call", none⟩ initialServer rfl rfl
  exact ⟨h.1, h.2.2.2⟩

/-- Counterexample to C2 as stated: at instant 5 with a token that expired
at 2 and a token endpoint that is down, the credential check fails, yet
`get_projects` returns a success wrap (`projects: [], count: 0`), not an
"Error: ..." entry; the trace shows the one failed exchange and no
upstream call. -/
theorem claim_C2_counterexample :
    execute_zoho_tool 5 (.transportFail "token endpoint down")
        (.transportFail "upstream down") (.str "get_projects") (.obj [])
        expiredCred =
      (.ok (.obj [("projects", .arr []), ("count", .num 0)]), expiredCred,
       [Event.authCall]) ∧
    (execute_zoho_tool 5 (.transportFail "token endpoint down")
        (.transportFail "upstream down") (.str "get_projects") (.obj [])
        expiredCred).1.isErr = false ∧
    is_token_expired 5 expiredCred = true := ⟨rfl, rfl, rfl⟩

/-- C2 amended: when the credential check fails inside a tool execution,
the mapped upstream operation is never attempted (no `upstreamCall` in the
trace), but the failure is not surfaced as a distinct error: the
collection tools (`get_projects`, `get_sprints`, `get_items`, `get_epics`)
return an empty-collection success wrap, the singular tools return
"{Resource} not found", and `get_item` fails with its arity `TypeError`
before the credential check is ever reached. -/
theorem claim_C2_amended (now : Nat) (ar : AuthResponse) (h : HttpResult)
    (s : CredState) (he : is_token_expired now s = true)
    (hf : (authenticate now ar s).1 = false) :
    (∀ args, execute_zoho_tool now ar h (.str "get_projects") args s =
      (.ok (.obj [("projects", .arr []), ("count", .num 0)]), s,
       [Event.authCall])) ∧
    (∀ args, hasArg args "project_id" = true →
      execute_zoho_tool now ar h (.str "get_project") args s =
      (.err "Project not found", s, [Event.authCall])) ∧
    (∀ args, hasArg args "project_id" = true →
      execute_zoho_tool now ar h (.str "get_sprints") args s =
      (.ok (.obj [("sprints", .arr []), ("count", .num 0)]), s,
       [Event.authCall])) ∧
    (∀ args, hasArg args "project_id" = true → hasArg args "sprint_id" = true →
      execute_zoho_tool now ar h (.str "get_sprint") args s =
      (.err "Sprint not found", s, [Event.authCall])) ∧
    (∀ args, hasArg args "project_id" = true →
        hasArg args "sprint_id_or_backlog_id" = true →
      execute_zoho_tool now ar h (.str "get_items") args s =
      (.ok (.obj [("items", .arr []), ("count", .num 0)]), s,
       [Event.authCall])) ∧
    (∀ args, hasArg args "project_id" = true →
        hasArg args "sprint_id_or_backlog_id" = true →
        hasArg args "item_id" = true →
      execute_zoho_tool now ar h (.str "get_item") args s =
      (.err "ZohoSprintsService.get_item() takes 3 positional arguments but 4 were given",
       s, [])) ∧
    (∀ args, hasArg args "project_id" = true →
      execute_zoho_tool now ar h (.str "get_epics") args s =
      (.ok (.obj [("epics", .arr []), ("count", .num 0)]), s,
       [Event.authCall])) ∧
    (∀ args, hasArg args "project_id" = true → hasArg args "epic_id" = true →
      execute_zoho_tool now ar h (.str "get_epic") args s =
      (.err "Epic not found", s, [Event.authCall])) := by
  refine ⟨?_, ?_, ?_, ?_, ?_, ?_, ?_, ?_⟩
  · intro args
    rw [exec_dispatch_projects]
    unfold exec_get_projects
    rw [get_projects_authfail now ar h s he hf]
    rfl
  · intro args hp
    rw [exec_dispatch_project]
    cases args
    case obj fs =>
      have hp' : ((fs.lookup "project_id").getD Json.null).truthy = true := by
        simpa [hasArg, Json.getKey] using hp
      simp only [exec_get_project, hp']
      rw [get_project_authfail now ar h s he hf]
      rfl
    all_goals simp [hasArg, Json.getKey, Json.truthy] at hp
  · intro args hp
    rw [exec_dispatch_sprints]
    cases args
    case obj fs =>
      have hp' : ((fs.lookup "project_id").getD Json.null).truthy = true := by
        simpa [hasArg, Json.getKey] using hp
      simp only [exec_get_sprints, hp']
      rw [get_sprints_authfail now ar h s he hf]
      rfl
    all_goals simp [hasArg, Json.getKey, Json.truthy] at hp
  · intro args hp hq
    rw [exec_dispatch_sprint]
    cases args
    case obj fs =>
      have hp' : ((fs.lookup "project_id").getD Json.null).truthy = true := by
        simpa [hasArg, Json.getKey] using hp
      have hq' : ((fs.lookup "sprint_id").getD Json.null).truthy = true := by
        simpa [hasArg, Json.getKey] using hq
      simp only [exec_get_sprint, hp', hq']
      rw [get_sprint_authfail now ar h s he hf]
      rfl
    all_goals simp [hasArg, Json.getKey, Json.truthy] at hp
  · intro args hp hq
    rw [exec_dispatch_items]
    cases args
    case obj fs =>
      have hp' : ((fs.lookup "project_id").getD Json.null).truthy = true := by
        simpa [hasArg, Json.getKey] using hp
      have hq' : ((fs.lookup "sprint_id_or_backlog_id").getD Json.null).truthy
          = true := by
        simpa [hasArg, Json.getKey] using hq
      simp only [exec_get_items, hp', hq']
      rw [get_items_authfail now ar h s he hf]
      rfl
    all_goals simp [hasArg, Json.getKey, Json.truthy] at hp
  · intro args hp hq hr
    rw [exec_dispatch_item]
    cases args
    case obj fs =>
      have hp' : ((fs.lookup "project_id").getD Json.null).truthy = true := by
        simpa [hasArg, Json.getKey] using hp
      have hq' : ((fs.lookup "sprint_id_or_backlog_id").getD Json.null).truthy
          = true := by
        simpa [hasArg, Json.getKey] using hq
      have hr' : ((fs.lookup "item_id").getD Json.null).truthy = true := by
        simpa [hasArg, Json.getKey] using hr
      simp [exec_get_item, hp', hq', hr']
    all_goals simp [hasArg, Json.getKey, Json.truthy] at hp
  · intro args hp
    rw [exec_dispatch_epics]
    cases args
    case obj fs =>
      have hp' : ((fs.lookup "project_id").getD Json.null).truthy = true := by
        simpa [hasArg, Json.getKey] using hp
      simp only [exec_get_epics, hp']
      rw [get_epics_authfail now ar h s he hf]
      rfl
    all_goals simp [hasArg, Json.getKey, Json.truthy] at hp
  · intro args hp hq
    rw [exec_dispatch_epic]
    cases args
    case obj fs =>
      have hp' : ((fs.lookup "project_id").getD Json.null).truthy = true := by
        simpa [hasArg, Json.getKey] using hp
      have hq' : ((fs.lookup "epic_id").getD Json.null).truthy = true := by
        simpa [hasArg, Json.getKey] using hq
      simp only [exec_get_epic, hp', hq']
      rw [get_epic_authfail now ar h s he hf]
      rfl
    all_goals simp [hasArg, Json.getKey, Json.truthy] at hp

/-- Witness for the amended C2: concrete failing exchange, valid
arguments, `get_project`. -/
theorem claim_C2_amended_witness :
    execute_zoho_tool 5 (.transportFail "token endpoint down")
        (.transportFail "upstream down") (.str "get_project")
        (.obj [("project_id", .str "1")]) expiredCred =
      (.err "Project not found", expiredCred, [Event.authCall]) := by
  have h := claim_C2_amended 5 (.transportFail "token endpoint down")
    (.transportFail "upstream down") expiredCred rfl rfl
  exact h.2.1 (.obj [("project_id", .str "1")]) rfl

/-- C6 (code slip at `get_item`): with an initialized, fresh-token session,
all three required arguments present and non-empty, and an upstream that
would return the item, the executor's `get_item` call fails with the arity
`TypeError` — the service operation is never invoked (empty trace), so the
wrapped upstream outcome is never produced. -/
theorem claim_C6_bug :
    execute_zoho_tool 5 (.response 200 (some ⟨some "tok", none, none⟩))
        (.response 200 (some (Json.obj [("itemNo", Json.num 7)])))
        (.str "get_item")
        (.obj [("project_id", .str "1"), ("sprint_id_or_backlog_id", .str "2"),
               ("item_id", .str "3")]) validCred =
      (.err "ZohoSprintsService.get_item() takes 3 positional arguments but 4 were given",
       validCred, []) ∧
    is_token_expired 5 validCred = false ∧
    httpGetJson (.response 200 (some (Json.obj [("itemNo", Json.num 7)]))) =
      .ok (Json.obj [("itemNo", Json.num 7)]) := ⟨rfl, rfl, rfl⟩

/-- `handle_init` when the service constructor raises (invalid
configuration): error envelope, state — including the old service handle —
untouched. -/
theorem handle_initialize_eq_cfg (env : Env) (params : List (String × Json))
    (rid : Option Int) (st : ServerState) (m : String)
    (hcfg : env.cfgError = some m) :
    handle_init env params rid st =
      (⟨rid, none, some ⟨-32603, "Initialization failed", some m⟩⟩, st, []) := by
  unfold handle_init
  rw [hcfg]

/-- `handle_init` when construction succeeds but `authenticate`
fails: `Initialization failed` envelope, `initialized` unchanged, the
handle re-bound to the fresh service left untouched by the failed
exchange. -/
theorem handle_initialize_eq_fail (env : Env) (params : List (String × Json))
    (rid : Option Int) (st : ServerState) (hcfg : env.cfgError = none)
    (hb : (authenticate env.now env.initAuth emptyCred).1 = false) :
    handle_init env params rid st =
      (⟨rid, none,
        some ⟨-32603, "Initialization failed",
              some "Failed to authenticate with Zoho Sprints API"⟩⟩,
       ⟨st.initialized, some (authenticate env.now env.initAuth emptyCred).2.1⟩,
       (authenticate env.now env.initAuth emptyCred).2.2) := by
  unfold handle_init
  rw [hcfg]
  simp [hb]

/-- `handle_init` when `authenticate` succeeds: capability result
(echoing `protocolVersion`, defaulting to "2024-11-05"), `initialized` set,
the handle re-bound to the freshly authenticated service. -/
theorem handle_initialize_eq_ok (env : Env) (params : List (String × Json))
    (rid : Option Int) (st : ServerState) (hcfg : env.cfgError = none)
    (hb : (authenticate env.now env.initAuth emptyCred).1 = true) :
    handle_init env params rid st =
      (⟨rid, some (initializeResult
          ((params.lookup "protocolVersion").getD (Json.str "2024-11-05"))),
        none⟩,
       ⟨true, some (authenticate env.now env.initAuth emptyCred).2.1⟩,
       (authenticate env.now env.initAuth emptyCred).2.2) := by
  unfold handle_init
  rw [hcfg]
  simp [hb]

/-- C10: with valid configuration, every `initialize` re-binds the service
handle to a freshly constructed service (empty credential state) before
authenticating; a failed initialize leaves `initialized` unchanged but the
handle now holds the fresh, token-less credential state — so a failed
re-initialize from an initialized session stays marked initialized while
holding an unauthenticated handle; a successful initialize marks the
session initialized with the freshly authenticated state. -/
theorem claim_C10 (env : Env) (params : List (String × Json))
    (rid : Option Int) (st : ServerState) (hcfg : env.cfgError = none) :
    (handle_init env params rid st).2.1.zoho_service =
      some (authenticate env.now env.initAuth emptyCred).2.1 ∧
    ((authenticate env.now env.initAuth emptyCred).1 = false →
      (handle_init env params rid st).2.1.initialized = st.initialized ∧
      (handle_init env params rid st).2.1.zoho_service = some emptyCred ∧
      (handle_init env params rid st).1.result = none ∧
      (handle_init env params rid st).1.error =
        some ⟨-32603, "Initialization failed",
              some "Failed to authenticate with Zoho Sprints API"⟩ ∧
      emptyCred.access_token = none) ∧
    ((authenticate env.now env.initAuth emptyCred).1 = true →
      (handle_init env params rid st).2.1.initialized = true ∧
      (handle_init env params rid st).1.error = none) := by
  cases hb : (authenticate env.now env.initAuth emptyCred).1 with
  | false =>
    have hH := handle_initialize_eq_fail env params rid st hcfg hb
    have hfr := auth_fail_frame env.now env.initAuth emptyCred hb
    refine ⟨by rw [hH], fun _ => ⟨by rw [hH], ?_, by rw [hH], by rw [hH], rfl⟩,
            fun hc => absurd hc (by simp)⟩
    rw [hH]
    simpa using congrArg some hfr
  | true =>
    have hH := handle_initialize_eq_ok env params rid st hcfg hb
    exact ⟨by rw [hH], fun hc => absurd hc (by simp),
           fun _ => ⟨by rw [hH], by rw [hH]⟩⟩

/-- Witness for C10: a failed re-initialize from an initialized,
token-holding session leaves it initialized with a token-less handle. -/
theorem claim_C10_witness :
    (handle_init failEnv [] (some 2) ⟨true, some validCred⟩).2.1.initialized
      = true ∧
    (handle_init failEnv [] (some 2) ⟨true, some validCred⟩).2.1.zoho_service
      = some emptyCred ∧
    (handle_init failEnv [] (some 2) ⟨true, some validCred⟩).1.result
      = none := by
  have h := claim_C10 failEnv [] (some 2) ⟨true, some validCred⟩ rfl
  obtain ⟨-, h2, -⟩ := h
  obtain ⟨ha, hz, hr, -, -⟩ := h2 rfl
  exact ⟨ha, hz, hr⟩

/-- Routing equation: `initialize` goes to `handle_init`. -/
theorem process_eq_init (env : Env) (req : MCPRequest) (st : ServerState)
    (hm : req.method = "initialize") :
    process_mcp_request env req st =
      handle_init env (req.params.getD []) req.id st := by
  simp only [process_mcp_request]
  rw [hm]
  rfl

/-- Routing equation: `notifications/initialized` is acknowledged with an
envelope carrying the id and neither result nor error; no state change. -/
theorem process_eq_notifications (env : Env) (req : MCPRequest)
    (st : ServerState) (hm : req.method = "notifications/initialized") :
    process_mcp_request env req st = (⟨req.id, none, none⟩, st, []) := by
  simp only [process_mcp_request]
  rw [hm]
  rfl

/-- Routing equation: `tools/list` returns the static catalog. -/
theorem process_eq_tools_list (env : Env) (req : MCPRequest)
    (st : ServerState) (hm : req.method = "tools/list") :
    process_mcp_request env req st =
      (⟨req.id, some toolsListResult, none⟩, st, []) := by
  simp only [process_mcp_request]
  rw [hm]
  rfl

/-- Routing equation: `tools/call` goes to `handle_tools_call` with the
dispatcher's catch-all downgrading an escaped exception. -/
theorem process_eq_tools_call (env : Env) (req : MCPRequest)
    (st : ServerState) (hm : req.method = "tools/call") :
    process_mcp_request env req st =
      (match handle_tools_call env (req.params.getD []) req.id st with
       | (.ok resp, st', ev) => (resp, st', ev)
       | (.error e, st', ev) =>
         (⟨req.id, none, some ⟨-32603, "Internal error", some e⟩⟩, st', ev)) := by
  simp only [process_mcp_request]
  rw [hm]
  rfl

/-- Routing equation: any unrecognized method, in any state, yields the
`-32601` method-not-found envelope with no state change and no handler
routing (empty trace). -/
theorem process_eq_unknown (env : Env) (req : MCPRequest) (st : ServerState)
    (h1 : req.method ≠ "initialize")
    (h2 : req.method ≠ "notifications/initialized")
    (h3 : req.method ≠ "tools/list") (h4 : req.method ≠ "tools/call") :
    process_mcp_request env req st =
      (⟨req.id, none,
        some ⟨-32601, "Method not found",
              some ("Unknown method: " ++ req.method)⟩⟩, st, []) := by
  simp [process_mcp_request, beq_iff_eq, h1, h2, h3, h4]

/-- `handle_tools_call` below the gate: uninitialized or handle-less
sessions get the fixed not-initialized envelope with no effects. -/
theorem htc_notinit (env : Env) (params : List (String × Json))
    (rid : Option Int) (st : ServerState)
    (h : st.initialized = false ∨ st.zoho_service = none) :
    handle_tools_call env params rid st =
      (.ok ⟨rid, none, some ⟨-32603, "Server not initialized",
                             some "Call initialize() first"⟩⟩, st, []) := by
  unfold handle_tools_call
  cases hz : st.zoho_service with
  | none => rfl
  | some s =>
    rcases h with h | h
    · simp [h]
    · rw [h] at hz
      cases hz

/-- `handle_tools_call` when the extracted batch value is not iterable:
the `TypeError` escapes the handler (state untouched so far). -/
theorem htc_iterfail (env : Env) (params : List (String × Json))
    (rid : Option Int) (st : ServerState) (s : CredState) (e : String)
    (hz : st.zoho_service = some s) (hi : st.initialized = true)
    (hIt : (toolCallsOf params).pyIter = .error e) :
    handle_tools_call env params rid st = (.error e, st, []) := by
  unfold handle_tools_call
  rw [hz]
  simp [hi, hIt]

/-- `handle_tools_call` when the batch iterates and the loop finishes:
result envelope shaped by `batchResultJson`, credential state threaded. -/
theorem htc_run_ok (env : Env) (params : List (String × Json))
    (rid : Option Int) (st : ServerState) (s : CredState) (calls : List Json)
    (results : List ToolResult)
    (hz : st.zoho_service = some s) (hi : st.initialized = true)
    (hIt : (toolCallsOf params).pyIter = .ok calls)
    (hr : (runCalls env calls 0 s).1 = .ok results) :
    handle_tools_call env params rid st =
      (.ok ⟨rid, some (batchResultJson results), none⟩,
       ⟨st.initialized, some (runCalls env calls 0 s).2.1⟩,
       (runCalls env calls 0 s).2.2) := by
  unfold handle_tools_call
  rw [hz]
  simp [hi, hIt, hr]

/-- `handle_tools_call` when a call entry raises before the per-call
guard (non-dict entry): the exception escapes, mutations persist. -/
theorem htc_run_err (env : Env) (params : List (String × Json))
    (rid : Option Int) (st : ServerState) (s : CredState) (calls : List Json)
    (e : String)
    (hz : st.zoho_service = some s) (hi : st.initialized = true)
    (hIt : (toolCallsOf params).pyIter = .ok calls)
    (hr : (runCalls env calls 0 s).1 = .error e) :
    handle_tools_call env params rid st =
      (.error e,
       ⟨st.initialized, some (runCalls env calls 0 s).2.1⟩,
       (runCalls env calls 0 s).2.2) := by
  unfold handle_tools_call
  rw [hz]
  simp [hi, hIt, hr]

/-- Every `Except.ok` envelope out of `handle_tools_call` carries the
request id and has exactly one of result/error: either a result envelope
or the fixed not-initialized error envelope. -/
theorem htc_ok_shape (env : Env) (params : List (String × Json))
    (rid : Option Int) (st : ServerState) (resp : MCPResp)
    (st' : ServerState) (ev : List Event)
    (hE : handle_tools_call env params rid st = (.ok resp, st', ev)) :
    resp.id = rid ∧
    ((∃ v, resp = ⟨rid, some v, none⟩) ∨
     resp = ⟨rid, none, some ⟨-32603, "Server not initialized",
                              some "Call initialize() first"⟩⟩) := by
  cases hz : st.zoho_service with
  | none =>
    rw [htc_notinit env params rid st (Or.inr hz)] at hE
    have h1 := congrArg Prod.fst hE
    simp only at h1
    injection h1 with h1
    subst h1
    exact ⟨rfl, Or.inr rfl⟩
  | some s =>
    cases hi : st.initialized with
    | false =>
      rw [htc_notinit env params rid st (Or.inl hi)] at hE
      have h1 := congrArg Prod.fst hE
      simp only at h1
      injection h1 with h1
      subst h1
      exact ⟨rfl, Or.inr rfl⟩
    | true =>
      cases hIt : (toolCallsOf params).pyIter with
      | error e =>
        rw [htc_iterfail env params rid st s e hz hi hIt] at hE
        have h1 := congrArg Prod.fst hE
        simp only at h1
        cases h1
      | ok calls =>
        cases hr : (runCalls env calls 0 s).1 with
        | error e =>
          rw [htc_run_err env params rid st s calls e hz hi hIt hr] at hE
          have h1 := congrArg Prod.fst hE
          simp only at h1
          cases h1
        | ok results =>
          rw [htc_run_ok env params rid st s calls results hz hi hIt hr] at hE
          have h1 := congrArg Prod.fst hE
          simp only at h1
          injection h1 with h1
          subst h1
          exact ⟨rfl, Or.inl ⟨batchResultJson results, rfl⟩⟩

/-- Every envelope out of `handle_init` carries the request id and
has exactly one of result/error; errors are `Initialization failed` with
code `-32603`. -/
theorem hinit_shape (env : Env) (params : List (String × Json))
    (rid : Option Int) (st : ServerState) :
    (handle_init env params rid st).1.id = rid ∧
    ((∃ v, (handle_init env params rid st).1.result = some v ∧
           (handle_init env params rid st).1.error = none) ∨
     (∃ d, (handle_init env params rid st).1.result = none ∧
           (handle_init env params rid st).1.error =
             some ⟨-32603, "Initialization failed", some d⟩)) := by
  cases hc : env.cfgError with
  | some m =>
    rw [handle_initialize_eq_cfg env params rid st m hc]
    exact ⟨rfl, Or.inr ⟨m, rfl, rfl⟩⟩
  | none =>
    cases hb : (authenticate env.now env.initAuth emptyCred).1 with
    | false =>
      rw [handle_initialize_eq_fail env params rid st hc hb]
      exact ⟨rfl, Or.inr ⟨_, rfl, rfl⟩⟩
    | true =>
      rw [handle_initialize_eq_ok env params rid st hc hb]
      exact ⟨rfl, Or.inl ⟨_, rfl, rfl⟩⟩

/-- Counterexample to C7 as stated: the `notifications/initialized`
acknowledgement carries the request id but contains NEITHER a result value
nor an error object — the source returns a bare `jsonrpc`/`id` dict
(line 96) — so "exactly one of result/error is always present" fails. -/
theorem claim_C7_counterexample :
    (process_mcp_request failEnv ⟨some 7, "notifications/initialized", none⟩
        initialServer).1.result = none ∧
    (process_mcp_request failEnv ⟨some 7, "notifications/initialized", none⟩
        initialServer).1.error = none ∧
    (process_mcp_request failEnv ⟨some 7, "notifications/initialized", none⟩
        initialServer).1.id = some 7 := ⟨rfl, rfl, rfl⟩

/-- C7 amended: every envelope carries the request id verbatim, and result
and error are mutually exclusive; every response except the
`notifications/initialized` acknowledgement contains exactly one of them,
while that acknowledgement carries the id with neither field and changes
no state. -/
theorem claim_C7_amended (env : Env) (req : MCPRequest) (st : ServerState) :
    (process_mcp_request env req st).1.id = req.id ∧
    ¬((process_mcp_request env req st).1.result.isSome = true ∧
      (process_mcp_request env req st).1.error.isSome = true) ∧
    (req.method ≠ "notifications/initialized" →
      ((process_mcp_request env req st).1.result.isSome = true ∨
       (process_mcp_request env req st).1.error.isSome = true)) ∧
    (req.method = "notifications/initialized" →
      (process_mcp_request env req st).1 = ⟨req.id, none, none⟩ ∧
      (process_mcp_request env req st).2.1 = st ∧
      (process_mcp_request env req st).2.2 = []) := by
  by_cases h1 : req.method = "initialize"
  · rw [process_eq_init env req st h1]
    obtain ⟨hid, hsh⟩ := hinit_shape env (req.params.getD []) req.id st
    refine ⟨hid, ?_, fun _ => ?_,
            fun hc => absurd (h1.symm.trans hc) (by decide)⟩
    · rcases hsh with ⟨v, hr, he⟩ | ⟨d, hr, he⟩ <;> simp [hr, he]
    · rcases hsh with ⟨v, hr, he⟩ | ⟨d, hr, he⟩ <;> simp [hr, he]
  by_cases h2 : req.method = "notifications/initialized"
  · rw [process_eq_notifications env req st h2]
    exact ⟨rfl, by simp, fun hne => absurd h2 hne, fun _ => ⟨rfl, rfl, rfl⟩⟩
  by_cases h3 : req.method = "tools/list"
  · rw [process_eq_tools_list env req st h3]
    exact ⟨rfl, by simp, fun _ => Or.inl rfl,
           fun hc => absurd (h3.symm.trans hc) (by decide)⟩
  by_cases h4 : req.method = "tools/call"
  · rw [process_eq_tools_call env req st h4]
    rcases hE : handle_tools_call env (req.params.getD []) req.id st
      with ⟨exr, st', ev⟩
    cases exr with
    | ok resp =>
      obtain ⟨hid, hsh⟩ :=
        htc_ok_shape env (req.params.getD []) req.id st resp st' ev hE
      refine ⟨hid, ?_, fun _ => ?_,
              fun hc => absurd (h4.symm.trans hc) (by decide)⟩
      · rcases hsh with ⟨v, rfl⟩ | rfl <;> simp
      · rcases hsh with ⟨v, rfl⟩ | rfl <;> simp
    | error e =>
      exact ⟨rfl, by simp, fun _ => Or.inr (by simp),
             fun hc => absurd (h4.symm.trans hc) (by decide)⟩
  · rw [process_eq_unknown env req st h1 h2 h3 h4]
    exact ⟨rfl, by simp, fun _ => Or.inr (by simp), fun hc => absurd hc h2⟩

/-- Witness for the amended C7: concrete `notifications/initialized`. -/
theorem claim_C7_amended_witness :
    (process_mcp_request failEnv ⟨some 7, "notifications/initialized", none⟩
        initialServer).1 = ⟨some 7, none, none⟩ ∧
    (process_mcp_request failEnv ⟨some 7, "notifications/initialized", none⟩
        initialServer).2.1 = initialServer := by
  have h := claim_C7_amended failEnv
    ⟨some 7, "notifications/initialized", none⟩ initialServer
  obtain ⟨ha, hb, -⟩ := h.2.2.2 rfl
  exact ⟨ha, hb⟩

/-- Counterexample to C9 as stated: two different protocol error kinds —
not-initialized and initialization-failed — both carry code `-32603`
(as does internal-error), so a client cannot tell the four kinds apart by
code alone. -/
theorem claim_C9_counterexample :
    (process_mcp_request failEnv ⟨some 1, "tools/call", none⟩
        initialServer).1.error =
      some ⟨-32603, "Server not initialized", some "Call initialize() first"⟩ ∧
    (process_mcp_request failEnv ⟨some 2, "initialize", none⟩
        initialServer).1.error =
      some ⟨-32603, "Initialization failed",
            some "Failed to authenticate with Zoho Sprints API"⟩ := ⟨rfl, rfl⟩

/-- C9 amended: each error kind has a fixed code, but only
method-not-found has its own (`-32601`); not-initialized,
initialization-failed, and internal-error all share `-32603` and are
distinguishable only by message.  Every unrecognized method, in any state,
yields the `-32601` envelope and is never routed to a handler (state
unchanged, empty trace). -/
theorem claim_C9_amended (env : Env) (req : MCPRequest) (st : ServerState) :
    (req.method ≠ "initialize" → req.method ≠ "notifications/initialized" →
     req.method ≠ "tools/list" → req.method ≠ "tools/call" →
      process_mcp_request env req st =
        (⟨req.id, none,
          some ⟨-32601, "Method not found",
                some ("Unknown method: " ++ req.method)⟩⟩, st, [])) ∧
    (∀ e, (process_mcp_request env req st).1.error = some e →
      (e.code = -32601 ∧ e.message = "Method not found") ∨
      (e.code = -32603 ∧
        (e.message = "Server not initialized" ∨
         e.message = "Initialization failed" ∨
         e.message = "Internal error"))) := by
  constructor
  · intro h1 h2 h3 h4
    exact process_eq_unknown env req st h1 h2 h3 h4
  · intro e he
    by_cases h1 : req.method = "initialize"
    · rw [process_eq_init env req st h1] at he
      obtain ⟨-, hsh⟩ := hinit_shape env (req.params.getD []) req.id st
      rcases hsh with ⟨v, hr, herr⟩ | ⟨d, hr, herr⟩
      · rw [herr] at he
        cases he
      · rw [herr] at he
        injection he with he
        subst he
        exact Or.inr ⟨rfl, Or.inr (Or.inl rfl)⟩
    by_cases h2 : req.method = "notifications/initialized"
    · rw [process_eq_notifications env req st h2] at he
      cases he
    by_cases h3 : req.method = "tools/list"
    · rw [process_eq_tools_list env req st h3] at he
      cases he
    by_cases h4 : req.method = "tools/call"
    · rw [process_eq_tools_call env req st h4] at he
      rcases hE : handle_tools_call env (req.params.getD []) req.id st
        with ⟨exr, st', ev⟩
      rw [hE] at he
      cases exr with
      | ok resp =>
        obtain ⟨-, hsh⟩ :=
          htc_ok_shape env (req.params.getD []) req.id st resp st' ev hE
        rcases hsh with ⟨v, rfl⟩ | rfl
        · cases he
        · have he' : some (⟨-32603, "Server not initialized",
              some "Call initialize() first"⟩ : MCPError) = some e := he
          injection he' with he'
          subst he'
          exact Or.inr ⟨rfl, Or.inl rfl⟩
      | error e2 =>
        have he' : some (⟨-32603, "Internal error", some e2⟩ : MCPError)
            = some e := he
        injection he' with he'
        subst he'
        exact Or.inr ⟨rfl, Or.inr (Or.inr rfl)⟩
    · rw [process_eq_unknown env req st h1 h2 h3 h4] at he
      have he' : some (⟨-32601, "Method not found",
          some ("Unknown method: " ++ req.method)⟩ : MCPError) = some e := he
      injection he' with he'
      subst he'
      exact Or.inl ⟨rfl, rfl⟩

/-- Witness for the amended C9: a concrete unknown method. -/
theorem claim_C9_amended_witness :
    process_mcp_request failEnv ⟨some 4, "bogus/method", none⟩ initialServer =
      (⟨some 4, none,
        some ⟨-32601, "Method not found",
              some ("Unknown method: " ++ "bogus/method")⟩⟩,
       initialServer, []) := by
  have h := claim_C9_amended failEnv ⟨some 4, "bogus/method", none⟩
    initialServer
  exact h.1 (by decide) (by decide) (by decide) (by decide)

/-- With a fresh token and a decodable upstream response, `get_project`
returns the decoded value after exactly one GET. -/
theorem get_project_valid_ok (now : Nat) (ar : AuthResponse) (h : HttpResult)
    (s : CredState) (tok : String) (v : Json)
    (hv : is_token_expired now s = false) (ht : s.access_token = some tok)
    (hj : httpGetJson h = .ok v) :
    get_project now ar h s = (v, s, [Event.upstreamCall]) := by
  simp [get_project, ensure_fresh now ar s hv, get_headers, ht, hj]

/-- With a fresh token and a raising GET, `get_project` returns `None`. -/
theorem get_project_valid_err (now : Nat) (ar : AuthResponse) (h : HttpResult)
    (s : CredState) (tok m : String)
    (hv : is_token_expired now s = false) (ht : s.access_token = some tok)
    (hj : httpGetJson h = .error m) :
    get_project now ar h s = (Json.null, s, [Event.upstreamCall]) := by
  simp [get_project, ensure_fresh now ar s hv, get_headers, ht, hj]

/-- Fresh-token success case of `get_projects`. -/
theorem get_projects_valid_ok (now : Nat) (ar : AuthResponse) (h : HttpResult)
    (s : CredState) (tok : String) (v : Json)
    (hv : is_token_expired now s = false) (ht : s.access_token = some tok)
    (hj : httpGetJson h = .ok v) :
    get_projects now ar h s = (v, s, [Event.upstreamCall]) := by
  simp [get_projects, ensure_fresh now ar s hv, get_headers, ht, hj]

/-- Fresh-token raising case of `get_projects`: empty list. -/
theorem get_projects_valid_err (now : Nat) (ar : AuthResponse) (h : HttpResult)
    (s : CredState) (tok m : String)
    (hv : is_token_expired now s = false) (ht : s.access_token = some tok)
    (hj : httpGetJson h = .error m) :
    get_projects now ar h s = (Json.arr [], s, [Event.upstreamCall]) := by
  simp [get_projects, ensure_fresh now ar s hv, get_headers, ht, hj]

/-- Fresh-token success case of `get_sprints`. -/
theorem get_sprints_valid_ok (now : Nat) (ar : AuthResponse) (h : HttpResult)
    (s : CredState) (tok : String) (v : Json)
    (hv : is_token_expired now s = false) (ht : s.access_token = some tok)
    (hj : httpGetJson h = .ok v) :
    get_sprints now ar h s = (v, s, [Event.upstreamCall]) := by
  simp [get_sprints, ensure_fresh now ar s hv, get_headers, ht, hj]

/-- Fresh-token raising case of `get_sprints`: `None` (the handler at
line 144 returns `None`, unlike the other collection getters). -/
theorem get_sprints_valid_err (now : Nat) (ar : AuthResponse) (h : HttpResult)
    (s : CredState) (tok m : String)
    (hv : is_token_expired now s = false) (ht : s.access_token = some tok)
    (hj : httpGetJson h = .error m) :
    get_sprints now ar h s = (Json.null, s, [Event.upstreamCall]) := by
  simp [get_sprints, ensure_fresh now ar s hv, get_headers, ht, hj]

/-- Fresh-token success case of `get_items`: the `"items"` field. -/
theorem get_items_valid_ok (now : Nat) (ar : AuthResponse) (h : HttpResult)
    (s : CredState) (tok : String) (v items : Json)
    (hv : is_token_expired now s = false) (ht : s.access_token = some tok)
    (hj : httpGetJson h = .ok v)
    (hg : v.pyGet "items" (Json.arr []) = .ok items) :
    get_items now ar h s = (items, s, [Event.upstreamCall]) := by
  simp [get_items, ensure_fresh now ar s hv, get_headers, ht, hj, hg]

/-- Fresh-token raising case of `get_items`: empty list. -/
theorem get_items_valid_err (now : Nat) (ar : AuthResponse) (h : HttpResult)
    (s : CredState) (tok m : String)
    (hv : is_token_expired now s = false) (ht : s.access_token = some tok)
    (hj : httpGetJson h = .error m) :
    get_items now ar h s = (Json.arr [], s, [Event.upstreamCall]) := by
  simp [get_items, ensure_fresh now ar s hv, get_headers, ht, hj]

/-- Fresh-token success case of `get_epics`: the `"epics"` field. -/
theorem get_epics_valid_ok (now : Nat) (ar : AuthResponse) (h : HttpResult)
    (s : CredState) (tok : String) (v epics : Json)
    (hv : is_token_expired now s = false) (ht : s.access_token = some tok)
    (hj : httpGetJson h = .ok v)
    (hg : v.pyGet "epics" (Json.arr []) = .ok epics) :
    get_epics now ar h s = (epics, s, [Event.upstreamCall]) := by
  simp [get_epics, ensure_fresh now ar s hv, get_headers, ht, hj, hg]

/-- Fresh-token raising case of `get_epics`: empty list. -/
theorem get_epics_valid_err (now : Nat) (ar : AuthResponse) (h : HttpResult)
    (s : CredState) (tok m : String)
    (hv : is_token_expired now s = false) (ht : s.access_token = some tok)
    (hj : httpGetJson h = .error m) :
    get_epics now ar h s = (Json.arr [], s, [Event.upstreamCall]) := by
  simp [get_epics, ensure_fresh now ar s hv, get_headers, ht, hj]

/-- Fresh-token cases of `get_sprint` (delegates to `get_project`). -/
theorem get_sprint_valid_ok (now : Nat) (ar : AuthResponse) (h : HttpResult)
    (s : CredState) (tok : String) (v : Json)
    (hv : is_token_expired now s = false) (ht : s.access_token = some tok)
    (hj : httpGetJson h = .ok v) :
    get_sprint now ar h s = (v, s, [Event.upstreamCall]) :=
  get_project_valid_ok now ar h s tok v hv ht hj

/-- Fresh-token raising case of `get_sprint`. -/
theorem get_sprint_valid_err (now : Nat) (ar : AuthResponse) (h : HttpResult)
    (s : CredState) (tok m : String)
    (hv : is_token_expired now s = false) (ht : s.access_token = some tok)
    (hj : httpGetJson h = .error m) :
    get_sprint now ar h s = (Json.null, s, [Event.upstreamCall]) :=
  get_project_valid_err now ar h s tok m hv ht hj

/-- Fresh-token success case of `get_epic`. -/
theorem get_epic_valid_ok (now : Nat) (ar : AuthResponse) (h : HttpResult)
    (s : CredState) (tok : String) (v : Json)
    (hv : is_token_expired now s = false) (ht : s.access_token = some tok)
    (hj : httpGetJson h = .ok v) :
    get_epic now ar h s = (v, s, [Event.upstreamCall]) :=
  get_project_valid_ok now ar h s tok v hv ht hj

/-- Fresh-token raising case of `get_epic`. -/
theorem get_epic_valid_err (now : Nat) (ar : AuthResponse) (h : HttpResult)
    (s : CredState) (tok m : String)
    (hv : is_token_expired now s = false) (ht : s.access_token = some tok)
    (hj : httpGetJson h = .error m) :
    get_epic now ar h s = (Json.null, s, [Event.upstreamCall]) :=
  get_project_valid_err now ar h s tok m hv ht hj

/-- Counterexample to C5 as stated: with a valid token and required
argument present, an upstream GET for `get_project` that raises
"Connection refused" is caught inside the service (which returns `None`),
so the executor reports "Error: Project not found" — the error does not
carry the raised failure's message. -/
theorem claim_C5_counterexample :
    (execute_zoho_tool 5 (.transportFail "token endpoint down")
        (.transportFail "Connection refused") (.str "get_project")
        (.obj [("project_id", .str "1")]) validCred).1 =
      .err "Project not found" ∧
    httpGetJson (.transportFail "Connection refused") =
      .error "Connection refused" ∧
    ("Project not found" : String) ≠ "Connection refused" :=
  ⟨rfl, rfl, by decide⟩

/-- C5 amended: for executions whose validation and credential check pass
(fresh token held), a truthy decoded result is wrapped as
`\x7b<resource-key>: value\x7d`, with a `count` field exactly for the four
collection tools; for the singular tools `get_project`/`get_sprint`/
`get_epic` both a falsy decoded result and a raised upstream failure yield
"{Resource} not found" (the failure's own message is never propagated);
a raised failure yields an empty-collection success wrap for
`get_projects`/`get_items`/`get_epics`, and for `get_sprints` it yields
`None` which surfaces as the `TypeError` message
"object of type 'NoneType' has no len()". -/
theorem claim_C5_amended (now : Nat) (ar : AuthResponse) (h : HttpResult)
    (s : CredState) (tok : String)
    (hv : is_token_expired now s = false)
    (ht : s.access_token = some tok) :
    (∀ args v, hasArg args "project_id" = true → httpGetJson h = .ok v →
      v.truthy = true →
      execute_zoho_tool now ar h (.str "get_project") args s =
        (.ok (.obj [("project", v)]), s, [Event.upstreamCall])) ∧
    (∀ args v, hasArg args "project_id" = true → httpGetJson h = .ok v →
      v.truthy = false →
      execute_zoho_tool now ar h (.str "get_project") args s =
        (.err "Project not found", s, [Event.upstreamCall])) ∧
    (∀ args m, hasArg args "project_id" = true → httpGetJson h = .error m →
      execute_zoho_tool now ar h (.str "get_project") args s =
        (.err "Project not found", s, [Event.upstreamCall])) ∧
    (∀ args v, hasArg args "project_id" = true → hasArg args "sprint_id" = true →
      httpGetJson h = .ok v → v.truthy = true →
      execute_zoho_tool now ar h (.str "get_sprint") args s =
        (.ok (.obj [("sprint", v)]), s, [Event.upstreamCall])) ∧
    (∀ args v, hasArg args "project_id" = true → hasArg args "sprint_id" = true →
      httpGetJson h = .ok v → v.truthy = false →
      execute_zoho_tool now ar h (.str "get_sprint") args s =
        (.err "Sprint not found", s, [Event.upstreamCall])) ∧
    (∀ args m, hasArg args "project_id" = true → hasArg args "sprint_id" = true →
      httpGetJson h = .error m →
      execute_zoho_tool now ar h (.str "get_sprint") args s =
        (.err "Sprint not found", s, [Event.upstreamCall])) ∧
    (∀ args v, hasArg args "project_id" = true → hasArg args "epic_id" = true →
      httpGetJson h = .ok v → v.truthy = true →
      execute_zoho_tool now ar h (.str "get_epic") args s =
        (.ok (.obj [("epic", v)]), s, [Event.upstreamCall])) ∧
    (∀ args v, hasArg args "project_id" = true → hasArg args "epic_id" = true →
      httpGetJson h = .ok v → v.truthy = false →
      execute_zoho_tool now ar h (.str "get_epic") args s =
        (.err "Epic not found", s, [Event.upstreamCall])) ∧
    (∀ args m, hasArg args "project_id" = true → hasArg args "epic_id" = true →
      httpGetJson h = .error m →
      execute_zoho_tool now ar h (.str "get_epic") args s =
        (.err "Epic not found", s, [Event.upstreamCall])) ∧
    (∀ args v n, httpGetJson h = .ok v → v.pyLen = .ok n →
      execute_zoho_tool now ar h (.str "get_projects") args s =
        (.ok (.obj [("projects", v), ("count", .num n)]), s,
         [Event.upstreamCall])) ∧
    (∀ args m, httpGetJson h = .error m →
      execute_zoho_tool now ar h (.str "get_projects") args s =
        (.ok (.obj [("projects", .arr []), ("count", .num 0)]), s,
         [Event.upstreamCall])) ∧
    (∀ args v n, hasArg args "project_id" = true → httpGetJson h = .ok v →
      v.pyLen = .ok n →
      execute_zoho_tool now ar h (.str "get_sprints") args s =
        (.ok (.obj [("sprints", v), ("count", .num n)]), s,
         [Event.upstreamCall])) ∧
    (∀ args m, hasArg args "project_id" = true → httpGetJson h = .error m →
      execute_zoho_tool now ar h (.str "get_sprints") args s =
        (.err "object of type 'NoneType' has no len()", s,
         [Event.upstreamCall])) ∧
    (∀ args v items n, hasArg args "project_id" = true →
      hasArg args "sprint_id_or_backlog_id" = true →
      httpGetJson h = .ok v → v.pyGet "items" (Json.arr []) = .ok items →
      items.pyLen = .ok n →
      execute_zoho_tool now ar h (.str "get_items") args s =
        (.ok (.obj [("items", items), ("count", .num n)]), s,
         [Event.upstreamCall])) ∧
    (∀ args m, hasArg args "project_id" = true →
      hasArg args "sprint_id_or_backlog_id" = true →
      httpGetJson h = .error m →
      execute_zoho_tool now ar h (.str "get_items") args s =
        (.ok (.obj [("items", .arr []), ("count", .num 0)]), s,
         [Event.upstreamCall])) ∧
    (∀ args v epics n, hasArg args "project_id" = true →
      httpGetJson h = .ok v → v.pyGet "epics" (Json.arr []) = .ok epics →
      epics.pyLen = .ok n →
      execute_zoho_tool now ar h (.str "get_epics") args s =
        (.ok (.obj [("epics", epics), ("count", .num n)]), s,
         [Event.upstreamCall])) ∧
    (∀ args m, hasArg args "project_id" = true → httpGetJson h = .error m →
      execute_zoho_tool now ar h (.str "get_epics") args s =
        (.ok (.obj [("epics", .arr []), ("count", .num 0)]), s,
         [Event.upstreamCall])) := by
  refine ⟨?_, ?_, ?_, ?_, ?_, ?_, ?_, ?_, ?_, ?_, ?_, ?_, ?_, ?_, ?_, ?_, ?_⟩
  · intro args v hp hj hvt
    rw [exec_dispatch_project]
    cases args
    case obj fs =>
      have hp' : ((fs.lookup "project_id").getD Json.null).truthy = true := by
        simpa [hasArg, Json.getKey] using hp
      simp only [exec_get_project, hp']
      rw [get_project_valid_ok now ar h s tok v hv ht hj]
      simp [hvt]
    all_goals simp [hasArg, Json.getKey, Json.truthy] at hp
  · intro args v hp hj hvt
    rw [exec_dispatch_project]
    cases args
    case obj fs =>
      have hp' : ((fs.lookup "project_id").getD Json.null).truthy = true := by
        simpa [hasArg, Json.getKey] using hp
      simp only [exec_get_project, hp']
      rw [get_project_valid_ok now ar h s tok v hv ht hj]
      simp [hvt]
    all_goals simp [hasArg, Json.getKey, Json.truthy] at hp
  · intro args m hp hj
    rw [exec_dispatch_project]
    cases args
    case obj fs =>
      have hp' : ((fs.lookup "project_id").getD Json.null).truthy = true := by
        simpa [hasArg, Json.getKey] using hp
      simp only [exec_get_project, hp']
      rw [get_project_valid_err now ar h s tok m hv ht hj]
      simp [Json.truthy]
    all_goals simp [hasArg, Json.getKey, Json.truthy] at hp
  · intro args v hp hq hj hvt
    rw [exec_dispatch_sprint]
    cases args
    case obj fs =>
      have hp' : ((fs.lookup "project_id").getD Json.null).truthy = true := by
        simpa [hasArg, Json.getKey] using hp
      have hq' : ((fs.lookup "sprint_id").getD Json.null).truthy = true := by
        simpa [hasArg, Json.getKey] using hq
      simp only [exec_get_sprint, hp', hq']
      rw [get_sprint_valid_ok now ar h s tok v hv ht hj]
      simp [hvt]
    all_goals simp [hasArg, Json.getKey, Json.truthy] at hp
  · intro args v hp hq hj hvt
    rw [exec_dispatch_sprint]
    cases args
    case obj fs =>
      have hp' : ((fs.lookup "project_id").getD Json.null).truthy = true := by
        simpa [hasArg, Json.getKey] using hp
      have hq' : ((fs.lookup "sprint_id").getD Json.null).truthy = true := by
        simpa [hasArg, Json.getKey] using hq
      simp only [exec_get_sprint, hp', hq']
      rw [get_sprint_valid_ok now ar h s tok v hv ht hj]
      simp [hvt]
    all_goals simp [hasArg, Json.getKey, Json.truthy] at hp
  · intro args m hp hq hj
    rw [exec_dispatch_sprint]
    cases args
    case obj fs =>
      have hp' : ((fs.lookup "project_id").getD Json.null).truthy = true := by
        simpa [hasArg, Json.getKey] using hp
      have hq' : ((fs.lookup "sprint_id").getD Json.null).truthy = true := by
        simpa [hasArg, Json.getKey] using hq
      simp only [exec_get_sprint, hp', hq']
      rw [get_sprint_valid_err now ar h s tok m hv ht hj]
      simp [Json.truthy]
    all_goals simp [hasArg, Json.getKey, Json.truthy] at hp
  · intro args v hp hq hj hvt
    rw [exec_dispatch_epic]
    cases args
    case obj fs =>
      have hp' : ((fs.lookup "project_id").getD Json.null).truthy = true := by
        simpa [hasArg, Json.getKey] using hp
      have hq' : ((fs.lookup "epic_id").getD Json.null).truthy = true := by
        simpa [hasArg, Json.getKey] using hq
      simp only [exec_get_epic, hp', hq']
      rw [get_epic_valid_ok now ar h s tok v hv ht hj]
      simp [hvt]
    all_goals simp [hasArg, Json.getKey, Json.truthy] at hp
  · intro args v hp hq hj hvt
    rw [exec_dispatch_epic]
    cases args
    case obj fs =>
      have hp' : ((fs.lookup "project_id").getD Json.null).truthy = true := by
        simpa [hasArg, Json.getKey] using hp
      have hq' : ((fs.lookup "epic_id").getD Json.null).truthy = true := by
        simpa [hasArg, Json.getKey] using hq
      simp only [exec_get_epic, hp', hq']
      rw [get_epic_valid_ok now ar h s tok v hv ht hj]
      simp [hvt]
    all_goals simp [hasArg, Json.getKey, Json.truthy] at hp
  · intro args m hp hq hj
    rw [exec_dispatch_epic]
    cases args
    case obj fs =>
      have hp' : ((fs.lookup "project_id").getD Json.null).truthy = true := by
        simpa [hasArg, Json.getKey] using hp
      have hq' : ((fs.lookup "epic_id").getD Json.null).truthy = true := by
        simpa [hasArg, Json.getKey] using hq
      simp only [exec_get_epic, hp', hq']
      rw [get_epic_valid_err now ar h s tok m hv ht hj]
      simp [Json.truthy]
    all_goals simp [hasArg, Json.getKey, Json.truthy] at hp
  · intro args v n hj hn
    rw [exec_dispatch_projects]
    unfold exec_get_projects
    rw [get_projects_valid_ok now ar h s tok v hv ht hj]
    simp [hn]
  · intro args m hj
    rw [exec_dispatch_projects]
    unfold exec_get_projects
    rw [get_projects_valid_err now ar h s tok m hv ht hj]
    rfl
  · intro args v n hp hj hn
    rw [exec_dispatch_sprints]
    cases args
    case obj fs =>
      have hp' : ((fs.lookup "project_id").getD Json.null).truthy = true := by
        simpa [hasArg, Json.getKey] using hp
      simp only [exec_get_sprints, hp']
      rw [get_sprints_valid_ok now ar h s tok v hv ht hj]
      simp [hn]
    all_goals simp [hasArg, Json.getKey, Json.truthy] at hp
  · intro args m hp hj
    rw [exec_dispatch_sprints]
    cases args
    case obj fs =>
      have hp' : ((fs.lookup "project_id").getD Json.null).truthy = true := by
        simpa [hasArg, Json.getKey] using hp
      simp only [exec_get_sprints, hp']
      rw [get_sprints_valid_err now ar h s tok m hv ht hj]
      rfl
    all_goals simp [hasArg, Json.getKey, Json.truthy] at hp
  · intro args v items n hp hq hj hg hn
    rw [exec_dispatch_items]
    cases args
    case obj fs =>
      have hp' : ((fs.lookup "project_id").getD Json.null).truthy = true := by
        simpa [hasArg, Json.getKey] using hp
      have hq' : ((fs.lookup "sprint_id_or_backlog_id").getD Json.null).truthy
          = true := by
        simpa [hasArg, Json.getKey] using hq
      simp only [exec_get_items, hp', hq']
      rw [get_items_valid_ok now ar h s tok v items hv ht hj hg]
      simp [hn]
    all_goals simp [hasArg, Json.getKey, Json.truthy] at hp
  · intro args m hp hq hj
    rw [exec_dispatch_items]
    cases args
    case obj fs =>
      have hp' : ((fs.lookup "project_id").getD Json.null).truthy = true := by
        simpa [hasArg, Json.getKey] using hp
      have hq' : ((fs.lookup "sprint_id_or_backlog_id").getD Json.null).truthy
          = true := by
        simpa [hasArg, Json.getKey] using hq
      simp only [exec_get_items, hp', hq']
      rw [get_items_valid_err now ar h s tok m hv ht hj]
      rfl
    all_goals simp [hasArg, Json.getKey, Json.truthy] at hp
  · intro args v epics n hp hj hg hn
    rw [exec_dispatch_epics]
    cases args
    case obj fs =>
      have hp' : ((fs.lookup "project_id").getD Json.null).truthy = true := by
        simpa [hasArg, Json.getKey] using hp
      simp only [exec_get_epics, hp']
      rw [get_epics_valid_ok now ar h s tok v epics hv ht hj hg]
      simp [hn]
    all_goals simp [hasArg, Json.getKey, Json.truthy] at hp
  · intro args m hp hj
    rw [exec_dispatch_epics]
    cases args
    case obj fs =>
      have hp' : ((fs.lookup "project_id").getD Json.null).truthy = true := by
        simpa [hasArg, Json.getKey] using hp
      simp only [exec_get_epics, hp']
      rw [get_epics_valid_err now ar h s tok m hv ht hj]
      rfl
    all_goals simp [hasArg, Json.getKey, Json.truthy] at hp

/-- Witness for the amended C5: with a fresh token, `get_project` wraps a
truthy decoded object without a `count`, and `get_projects` wraps a
decoded list with a `count`. -/
theorem claim_C5_amended_witness :
    execute_zoho_tool 5 (.transportFail "x")
        (.response 200 (some (.obj [("id", .num 1)]))) (.str "get_project")
        (.obj [("project_id", .str "1")]) validCred =
      (.ok (.obj [("project", .obj [("id", .num 1)])]), validCred,
       [Event.upstreamCall]) ∧
    execute_zoho_tool 5 (.transportFail "x")
        (.response 200 (some (.arr [.str "p"]))) (.str "get_projects")
        (.obj []) validCred =
      (.ok (.obj [("projects", .arr [.str "p"]), ("count", .num 1)]),
       validCred, [Event.upstreamCall]) := by
  have h1 := claim_C5_amended 5 (.transportFail "x")
    (.response 200 (some (.obj [("id", .num 1)]))) validCred "tok" rfl rfl
  have h2 := claim_C5_amended 5 (.transportFail "x")
    (.response 200 (some (.arr [.str "p"]))) validCred "tok" rfl rfl
  exact ⟨h1.1 (.obj [("project_id", .str "1")]) (.obj [("id", .num 1)])
           rfl rfl rfl,
         h2.2.2.2.2.2.2.2.2.2.1 (.obj []) (.arr [.str "p"]) 1 rfl rfl⟩

/-- The `handle_tools_call` loop over a batch of well-formed (dict) call
entries never raises, produces exactly one `results` entry per call in the
supplied order, and each entry is the formatted outcome of one executor
invocation on that call's own name and arguments (with the credential
state threaded left to right) — so a failure in one call yields its own
error entry and never prevents the siblings. -/
theorem runCalls_ok (env : Env) (calls : List Json) :
    ∀ (i0 : Nat) (s : CredState),
      (∀ c ∈ calls, ∃ fs, c = Json.obj fs) →
      ∃ results : List ToolResult,
        (runCalls env calls i0 s).1 = .ok results ∧
        results.length = calls.length ∧
        ∀ j (hj : j < calls.length) (hr : j < results.length),
          ∃ fs s_j,
            calls.get ⟨j, hj⟩ = Json.obj fs ∧
            results.get ⟨j, hr⟩ =
              formatOutcome ((fs.lookup "name").getD Json.null)
                (execute_zoho_tool env.now (env.callAuth (i0 + j))
                  (env.callHttp (i0 + j))
                  ((fs.lookup "name").getD Json.null)
                  ((fs.lookup "arguments").getD (Json.obj [])) s_j).1 := by
  induction calls with
  | nil =>
    intro i0 s _
    exact ⟨[], rfl, rfl, fun j hj hr => absurd hj (by simp)⟩
  | cons c rest ih =>
    intro i0 s hobj
    obtain ⟨fs, rfl⟩ := hobj c (List.mem_cons_self c rest)
    obtain ⟨ts, hts, hlen, hidx⟩ :=
      ih (i0 + 1)
        (execute_zoho_tool env.now (env.callAuth i0) (env.callHttp i0)
          ((fs.lookup "name").getD Json.null)
          ((fs.lookup "arguments").getD (Json.obj [])) s).2.1
        (fun d hd => hobj d (List.mem_cons_of_mem _ hd))
    refine ⟨formatOutcome ((fs.lookup "name").getD Json.null)
        (execute_zoho_tool env.now (env.callAuth i0) (env.callHttp i0)
          ((fs.lookup "name").getD Json.null)
          ((fs.lookup "arguments").getD (Json.obj [])) s).1 :: ts,
      ?_, by simpa using hlen, ?_⟩
    · simp only [runCalls]
      rw [hts]
    · intro j hj hr
      cases j with
      | zero =>
        exact ⟨fs, s, rfl, by simp⟩
      | succ k =>
        have hj' : k < rest.length := by simpa using hj
        have hr' : k < ts.length := by simpa using hr
        obtain ⟨fs2, s2, hces, hres⟩ := hidx k hj' hr'
        refine ⟨fs2, s2, by simpa using hces, ?_⟩
        have harith : i0 + 1 + k = i0 + (k + 1) := by omega
        rw [← harith]
        simpa using hres

/-- C8: for an initialized session whose extracted `tools/call` batch is a
list of dict entries, the loop runs every call in the supplied order
(one result per call, each the formatted outcome of its own executor
invocation on its own name/arguments — a failing call yields its own
error entry, never aborting siblings), and the response flattens to the
single `\x7bname, content\x7d` exactly when one call was requested,
otherwise wrapping all results under `calls`. -/
theorem claim_C8 (env : Env) (params : List (String × Json))
    (rid : Option Int) (st : ServerState) (s : CredState) (calls : List Json)
    (hz : st.zoho_service = some s) (hi : st.initialized = true)
    (hIt : (toolCallsOf params).pyIter = .ok calls)
    (hobj : ∀ c ∈ calls, ∃ fs, c = Json.obj fs) :
    (runCalls env calls 0 s).1 = .ok (runResults env calls 0 s) ∧
    handle_tools_call env params rid st =
      (.ok ⟨rid, some (batchResultJson (runResults env calls 0 s)), none⟩,
       ⟨st.initialized, some (runCalls env calls 0 s).2.1⟩,
       (runCalls env calls 0 s).2.2) ∧
    (runResults env calls 0 s).length = calls.length ∧
    (∀ j (hj : j < calls.length)
        (hr : j < (runResults env calls 0 s).length),
      ∃ fs s_j,
        calls.get ⟨j, hj⟩ = Json.obj fs ∧
        (runResults env calls 0 s).get ⟨j, hr⟩ =
          formatOutcome ((fs.lookup "name").getD Json.null)
            (execute_zoho_tool env.now (env.callAuth j) (env.callHttp j)
              ((fs.lookup "name").getD Json.null)
              ((fs.lookup "arguments").getD (Json.obj [])) s_j).1) ∧
    (∀ t, runResults env calls 0 s = [t] →
      batchResultJson (runResults env calls 0 s) =
        Json.obj [("name", t.name),
                  ("content",
                   Json.arr [Json.obj [("type", Json.str "text"),
                                       ("text", Json.str t.text)]])]) ∧
    ((runResults env calls 0 s).length ≠ 1 →
      batchResultJson (runResults env calls 0 s) =
        Json.obj [("calls",
                   Json.arr ((runResults env calls 0 s).map toolResultJson))]) := by
  obtain ⟨results, hok, hlen, hidx⟩ := runCalls_ok env calls 0 s hobj
  have hR : runResults env calls 0 s = results := by
    unfold runResults
    rw [hok]
  rw [hR]
  refine ⟨hok, htc_run_ok env params rid st s calls results hz hi hIt hok,
          hlen, ?_, ?_, ?_⟩
  · intro j hj hr
    obtain ⟨fs, s_j, h1, h2⟩ := hidx j hj hr
    refine ⟨fs, s_j, h1, ?_⟩
    simpa using h2
  · intro t hres
    rw [hres]
    rfl
  · intro hne
    cases results with
    | nil => rfl
    | cons a l =>
      cases l with
      | nil => exact absurd rfl hne
      | cons b m => rfl

/-- Witness for C8: a concrete two-call batch (one valid call, one call
missing its required argument) on an initialized session — both calls
produce a result (length 2), and the response wraps them under `calls`. -/
theorem claim_C8_witness :
    handle_tools_call okEnv batchParams (some 9) ⟨true, some validCred⟩ =
      (.ok ⟨some 9,
            some (batchResultJson (runResults okEnv batchCalls 0 validCred)),
            none⟩,
       ⟨true, some (runCalls okEnv batchCalls 0 validCred).2.1⟩,
       (runCalls okEnv batchCalls 0 validCred).2.2) ∧
    (runResults okEnv batchCalls 0 validCred).length = 2 := by
  have h := claim_C8 okEnv batchParams (some 9) ⟨true, some validCred⟩
    validCred batchCalls rfl rfl rfl
    (by
      intro c hc
      simp only [batchCalls, List.mem_cons, List.not_mem_nil, or_false] at hc
      rcases hc with rfl | rfl
      · exact ⟨_, rfl⟩
      · exact ⟨_, rfl⟩)
  exact ⟨h.2.1, h.2.2.1.trans rfl⟩
